import Mathlib

/-!
Line-Follower control core: a shallow embedding

The definitions below transcribe the C sources

* `software/Reflectance_Sensor.c`  (`Weight`, `Mask`, `Reflectance_Sensor_Position`)
* `software/Final_Project_main.c`  (`pidController`, `Line_Follower_FSM_1`,
  `Line_Follower_Controller_2`, `Handle_Collision`, `Bumper_Sensors_Handler`)
* `software/Timer_A0_PWM.c`  (`Timer_A0_PWM_Init`, `Timer_A0_Update_Duty_Cycle_1`,
  `Timer_A0_Update_Duty_Cycle_2`)
* `software/Motor.c`  (`Motor_Init`, `Motor_Forward`, `Motor_Backward`, `Motor_Left`,
  `Motor_Right`, `Motor_Stop`)

Conventions of the embedding.

* `uint8_t`, `uint16_t`, `uint32_t` values are natural numbers; a store into such an
  object reduces modulo `2 ^ 8`, `2 ^ 16`, `2 ^ 32`.  `int` is 32 bits wide on the target
  (Cortex-M4); every `int` expression below stays far inside that range, so `int` values are
  plain integers.
* Fallible steps return `Option`: `none` stands for undefined behaviour (a division by zero).
* The assignment `PID = pidController(...)` converts a `double` to `uint16_t`.  C defines
  it for values in `0 .. 65535` only; for the others the stored value is left open and
  enters as the parameter `impl` of the tick handler.
* `Handle_Collision` writes none of the globals and never returns, so it contributes no
  state at a handler boundary.
* The `double` globals of the PID corrector (`desired`, `integral`, `previous`, `Kp`, `Ki`,
  `Kd`) hold integer values only: the gains are `20.0`, `0.0`, `1.0`, the measurement is an
  `int32_t` converted to `double`, and sums and products of integers of this size are exact
  in binary64.  They are therefore carried as integers.
-/

namespace LineFollower

/-! ## Position estimator (`Reflectance_Sensor.c`) -/

/-- Table `const int32_t Weight[8]`, in units of 0.1 mm; index 0 is the rightmost sensor. -/
def Weight : List Int := [334, 238, 142, 48, -48, -142, -238, -334]

/-- Table `const int32_t Mask[8]`: one bit per sensor. -/
def Mask : List Nat := [0x01, 0x02, 0x04, 0x08, 0x10, 0x20, 0x40, 0x80]

/-- Integer division of C (`/` on `int`): the quotient is truncated toward zero, and a zero
divisor is undefined behaviour. -/
def c_div (a b : Int) : Option Int :=
  if b = 0 then none else some (Int.tdiv a b)

/-- One iteration of the body of `for (int i = 0; i < 8; i++)` in
`Reflectance_Sensor_Position`, on the pair `(sum, count)`. -/
def Position_body (data : Nat) (acc : Int × Int) (i : Nat) : Int × Int :=
  if data &&& Mask.getD i 0 ≠ 0 then
    (acc.1 + Weight.getD i 0, acc.2 + 1)
  else
    acc

/-- The whole loop of `Reflectance_Sensor_Position`, started at `sum = 0`, `count = 0`. -/
def Position_loop (data : Nat) : Int × Int :=
  (List.range 8).foldl (Position_body data) (0, 0)

/-- Function `int32_t Reflectance_Sensor_Position(uint8_t data)`. -/
def Reflectance_Sensor_Position (data : Nat) : Option Int :=
  if data ≠ 0 then
    c_div (Position_loop data).1 (Position_loop data).2
  else
    some (Weight.getD 0 0 + 1)

/-! ### The estimator as the specification words it -/

/-- The sensors that see the line: the bit positions `i < 8` set in the bitmap. -/
def activeSensors (b : Nat) : Finset Nat :=
  (Finset.range 8).filter (fun i => b.testBit i = true)

/-- The fixed weights `{334, 238, 142, 48, -48, -142, -238, -334}` by sensor index. -/
def specWeight : Nat → Int
  | 0 => 334
  | 1 => 238
  | 2 => 142
  | 3 => 48
  | 4 => -48
  | 5 => -142
  | 6 => -238
  | 7 => -334
  | _ => 0

/-- Arithmetic mean of the active weights, the quotient truncated toward zero. -/
def meanActiveWeight (b : Nat) : Int :=
  Int.tdiv (∑ i in activeSensors b, specWeight i) ((activeSensors b).card : Int)

/-! ## Globals of `Final_Project_main.c` -/

/-- The `typedef enum { CENTER = 0, L1 = 1, ..., LEFT_T = 8 } Line_Follower_State`. -/
inductive Line_Follower_State
  | CENTER
  | L1
  | L2
  | L3
  | R1
  | R2
  | R3
  | DEAD_END
  | LEFT_T
  deriving DecidableEq, Repr

/-- The LED colour constants passed to `LED1_Output` and `LED2_Output`; their numeric
values live in `GPIO.h` and play no role here, so they are kept symbolic. -/
inductive LED_Color
  | RED_LED_OFF
  | RED_LED_ON
  | RGB_LED_OFF
  | RGB_LED_RED
  | RGB_LED_GREEN
  | RGB_LED_BLUE
  | RGB_LED_YELLOW
  | RGB_LED_SKY_BLUE
  deriving DecidableEq, Repr

/-- Calls into the peripheral drivers, in the order in which a handler issues them.  The
motor calls carry `(left_duty_cycle, right_duty_cycle)`. -/
inductive Command
  | LED1_Output (c : LED_Color)
  | LED2_Output (c : LED_Color)
  | Motor_Forward (left_duty_cycle right_duty_cycle : Nat)
  | Motor_Backward (left_duty_cycle right_duty_cycle : Nat)
  | Motor_Left (left_duty_cycle right_duty_cycle : Nat)
  | Motor_Right (left_duty_cycle right_duty_cycle : Nat)
  | Motor_Stop
  | Reflectance_Sensor_Start
  | Reflectance_Sensor_End
  | Clock_Delay1ms (ms : Nat)
  | Note_Pattern_1
  deriving DecidableEq, Repr

open Line_Follower_State LED_Color

/-- Global `double desired = 0.0`. -/
def desired : Int := 0

/-- Global `double Kp = 20.0`. -/
def Kp : Int := 20

/-- Global `double Ki = 0.0`. -/
def Ki : Int := 0

/-- Global `double Kd = 1.0`. -/
def Kd : Int := 1

/-- Preprocessor constant `PWM_NOMINAL`. -/
def PWM_NOMINAL : Int := 3500

/-- Preprocessor constant `PWM_SWING`. -/
def PWM_SWING : Int := 3000

/-- Preprocessor constant `PWM_MIN`, defined as `(PWM_NOMINAL - PWM_SWING)`. -/
def PWM_MIN : Int := PWM_NOMINAL - PWM_SWING

/-- Preprocessor constant `PWM_MAX`, defined as `(PWM_NOMINAL + PWM_SWING)`. -/
def PWM_MAX : Int := PWM_NOMINAL + PWM_SWING

/-- The mutable globals of `Final_Project_main.c` that the two periodic handlers read and
write. -/
structure Globals where
  /-- The `double integral`. -/
  integral : Int
  /-- The `double previous`. -/
  previous : Int
  /-- The `uint16_t PID`. -/
  PID : Nat
  /-- The `uint16_t Duty_Cycle_Left`. -/
  Duty_Cycle_Left : Nat
  /-- The `uint16_t Duty_Cycle_Right`. -/
  Duty_Cycle_Right : Nat
  /-- The `uint8_t Line_Sensor_Data`. -/
  Line_Sensor_Data : Nat
  /-- The `int32_t Line_Sensor_Position`. -/
  Line_Sensor_Position : Int
  /-- The `uint32_t SysTick_counter`. -/
  SysTick_counter : Nat
  /-- The `int dead_right`. -/
  dead_right : Int
  /-- The `int ignore_left`. -/
  ignore_left : Int
  /-- The `Line_Follower_State current_state`. -/
  current_state : Line_Follower_State
  deriving DecidableEq, Repr

/-- Store of an `int` value into a `uint16_t` object: reduction modulo `2 ^ 16`. -/
def to_uint16 (x : Int) : Nat := (x % 65536).toNat

/-- Conversion of a `double` holding the integer `x` to `uint16_t`.  A value in
`0 .. 65535` is kept.  For any other value C leaves the conversion undefined; what the
target then stores is given by `impl`, reduced to 16 bits. -/
def double_to_uint16 (impl : Int → Nat) (x : Int) : Nat :=
  if 0 ≤ x ∧ x < 65536 then x.toNat else impl x % 65536

/-- The globals when `main` enables the interrupts: the initialisers of the declarations,
and `Duty_Cycle_Left = Duty_Cycle_Right = PWM_NOMINAL` assigned by `main`. -/
def Globals.initial : Globals where
  integral := 0
  previous := 0
  PID := 0
  Duty_Cycle_Left := to_uint16 PWM_NOMINAL
  Duty_Cycle_Right := to_uint16 PWM_NOMINAL
  Line_Sensor_Data := 0
  Line_Sensor_Position := 0
  SysTick_counter := 0
  dead_right := 0
  ignore_left := 0
  current_state := CENTER

/-! ## PID corrector -/

/-- Function `double pidController(double actual)`: the returned value and the globals
after the call. -/
def pidController (g : Globals) (actual : Int) : Int × Globals :=
  let error := desired - actual
  let proportional := Kp * error
  let g1 := { g with integral := g.integral + Ki * error }
  let derivative := Kd * (error - g1.previous)
  let PID := proportional + g1.integral + derivative
  (PID, { g1 with previous := error })

/-- The corrector called on a sequence of measurements, one call after the other. -/
def pidController_run (g : Globals) : List Int → Globals
  | [] => g
  | m :: ms => pidController_run (pidController g m).2 ms

/-! ## State machine action -/

/-- Function `void Line_Follower_FSM_1()`: the globals after the call and the driver calls
it issued.  The `switch` has no `default`, so `L2`, `L3` and `R2` do nothing. -/
def Line_Follower_FSM_1 (g : Globals) : Globals × List Command :=
  match g.current_state with
  | LEFT_T =>
    let g1 := { g with ignore_left := 0, dead_right := 0,
                       Duty_Cycle_Left := to_uint16 PWM_NOMINAL,
                       Duty_Cycle_Right := to_uint16 PWM_NOMINAL }
    (g1, [Command.LED1_Output RGB_LED_BLUE, Command.LED2_Output RGB_LED_BLUE,
          Command.Motor_Forward g1.Duty_Cycle_Left g1.Duty_Cycle_Right])
  | R3 =>
    let g1 := { g with dead_right := 1, ignore_left := 1 }
    (g1, [Command.LED1_Output RGB_LED_RED, Command.LED2_Output RGB_LED_RED,
          Command.Motor_Right g1.Duty_Cycle_Left g1.Duty_Cycle_Right])
  | R1 =>
    let g1 := { g with dead_right := 1, ignore_left := 0 }
    (g1, [Command.LED1_Output RGB_LED_YELLOW, Command.LED2_Output RGB_LED_OFF,
          Command.Motor_Forward g1.Duty_Cycle_Left g1.Duty_Cycle_Right])
  | CENTER =>
    let g1 := { g with ignore_left := 0 }
    (g1, [Command.LED1_Output RGB_LED_GREEN, Command.LED2_Output RGB_LED_GREEN,
          Command.Motor_Forward g1.Duty_Cycle_Left g1.Duty_Cycle_Right])
  | L1 =>
    let g1 := { g with dead_right := 0, ignore_left := 0 }
    (g1, [Command.LED1_Output RGB_LED_OFF, Command.LED2_Output RGB_LED_YELLOW,
          Command.Motor_Forward g1.Duty_Cycle_Left g1.Duty_Cycle_Right])
  | DEAD_END =>
    let g1 := { g with ignore_left := 0 }
    (g1, [Command.Motor_Left g1.Duty_Cycle_Left g1.Duty_Cycle_Right,
          Command.LED2_Output RGB_LED_SKY_BLUE])
  | _ => (g, [])

/-! ## Tick handler -/

/-- Value of a C comparison used as an operand: `1` when it holds, `0` otherwise. -/
def c_bool (p : Prop) [Decidable p] : Nat := if p then 1 else 0

/-- The `if`/`else if` chain of `Line_Follower_Controller_2` that assigns `current_state`
from `current_state`, `Line_Sensor_Data` and `Line_Sensor_Position`.  In C `==` binds
tighter than `&`, so the source text `Line_Sensor_Data & 0xF == 0xF` is
`Line_Sensor_Data & (0xF == 0xF)`, and likewise for `0xF0`. -/
def Line_Follower_Controller_2_transition (current_state : Line_Follower_State)
    (Line_Sensor_Data : Nat) (Line_Sensor_Position : Int) : Line_Follower_State :=
  if current_state = DEAD_END then
    if -48 < Line_Sensor_Position ∧ Line_Sensor_Position < 48 then CENTER else DEAD_END
  else if current_state = R3 then
    if Line_Sensor_Position > 48 ∧ Line_Sensor_Position < 238 then R1 else R3
  else if Line_Sensor_Data = 0 then DEAD_END
  else if Line_Sensor_Data &&& c_bool ((0xF : Int) = 0xF) ≠ 0 then R3
  else if Line_Sensor_Data &&& c_bool ((0xF0 : Int) = 0xF0) ≠ 0 then LEFT_T
  else if Line_Sensor_Position ≥ 48 then R1
  else if Line_Sensor_Position ≤ -48 then L1
  else if -48 < Line_Sensor_Position ∧ Line_Sensor_Position < 48 then CENTER
  else DEAD_END

/-- The last block of `Line_Follower_Controller_2`: both duty cycles are assigned from
`PID` and then clamped.  `PWM_NOMINAL + PID` and `PWM_NOMINAL - PID` are `int`
expressions; the assignment stores them into `uint16_t` objects. -/
def Line_Follower_Controller_2_mixer (g : Globals) : Globals :=
  let g1 := { g with Duty_Cycle_Right := to_uint16 (PWM_NOMINAL + (g.PID : Int)) }
  let g2 := { g1 with Duty_Cycle_Left := to_uint16 (PWM_NOMINAL - (g1.PID : Int)) }
  let g3 := if (g2.Duty_Cycle_Right : Int) < PWM_MIN then
              { g2 with Duty_Cycle_Right := to_uint16 PWM_MIN } else g2
  let g4 := if (g3.Duty_Cycle_Right : Int) > PWM_MAX then
              { g3 with Duty_Cycle_Right := to_uint16 PWM_MAX } else g3
  let g5 := if (g4.Duty_Cycle_Left : Int) < PWM_MIN then
              { g4 with Duty_Cycle_Left := to_uint16 PWM_MIN } else g4
  if (g5.Duty_Cycle_Left : Int) > PWM_MAX then
    { g5 with Duty_Cycle_Left := to_uint16 PWM_MAX } else g5

/-- Function `void Line_Follower_Controller_2()`, the body of `SysTick_Handler`.
`sensor` is the byte that `Reflectance_Sensor_End()` returns if it is called in this tick;
`impl` resolves the out-of-range `double` to `uint16_t` conversion. -/
def Line_Follower_Controller_2 (impl : Int → Nat) (g : Globals) (sensor : Nat) :
    Option (Globals × List Command) :=
  let g1 := { g with SysTick_counter := (g.SysTick_counter + 1) % 4294967296 }
  let out1 := if g1.SysTick_counter % 10 = 1 then [Command.Reflectance_Sensor_Start] else []
  if g1.SysTick_counter % 10 = 2 then
    let g2 := { g1 with Line_Sensor_Data := sensor % 256 }
    let g3 := if g2.ignore_left = (1 : Int) then
                { g2 with Line_Sensor_Data := g2.Line_Sensor_Data >>> 1 } else g2
    match Reflectance_Sensor_Position g3.Line_Sensor_Data with
    | none => none
    | some position =>
      let g4 := { g3 with Line_Sensor_Position := position }
      let r := pidController g4 g4.Line_Sensor_Position
      let g5 := { r.2 with PID := double_to_uint16 impl r.1 }
      let next := Line_Follower_Controller_2_transition g5.current_state
        g5.Line_Sensor_Data g5.Line_Sensor_Position
      let g6 := { g5 with current_state := next }
      some (Line_Follower_Controller_2_mixer g6, out1 ++ [Command.Reflectance_Sensor_End])
  else
    some (g1, out1)

/-- States of the globals at handler boundaries: the initial one, and whatever a completed
run of `SysTick_Handler` (any sensor byte) or of `Timer_A1_Periodic_Task` leads to. -/
inductive Reachable (impl : Int → Nat) : Globals → Prop
  | initial : Reachable impl Globals.initial
  | tick {g g1 : Globals} {out : List Command} (sensor : Nat) :
      Reachable impl g → Line_Follower_Controller_2 impl g sensor = some (g1, out) →
      Reachable impl g1
  | task {g : Globals} : Reachable impl g → Reachable impl (Line_Follower_FSM_1 g).1

/-- Both duty cycles lie in the band `[PWM_MIN, PWM_MAX]`. -/
def Duty_Cycles_in_band (g : Globals) : Prop :=
  PWM_MIN ≤ (g.Duty_Cycle_Left : Int) ∧ (g.Duty_Cycle_Left : Int) ≤ PWM_MAX ∧
  PWM_MIN ≤ (g.Duty_Cycle_Right : Int) ∧ (g.Duty_Cycle_Right : Int) ≤ PWM_MAX

/-- The globals after the first tick from `Globals.initial`: that tick only counts
(`SysTick_counter` becomes `1`) and issues `Reflectance_Sensor_Start`, so the next tick is
the first acquisition tick. -/
def Globals.first : Globals := { Globals.initial with SysTick_counter := 1 }

/-- The clamp of the mixer as the specification words it, on mathematical integers:
`clamp x = min (max x PWM_MIN) PWM_MAX`. -/
def specClamp (x : Int) : Int := min (max x PWM_MIN) PWM_MAX

/-! ## Collision handler -/

/-- Body of the loop `for (int i = 0; i < 5; i++)` of `Handle_Collision`. -/
def Handle_Collision_flash : List Command :=
  [Command.LED1_Output RED_LED_OFF, Command.LED2_Output RGB_LED_OFF,
   Command.Clock_Delay1ms 200,
   Command.LED1_Output RED_LED_ON, Command.LED2_Output RGB_LED_RED,
   Command.Clock_Delay1ms 200]

/-- Function `void Handle_Collision()`: the driver calls it issues, in order, before it
enters its final `while(1)` loop.  It reads and writes none of the globals `g`, and it
does not return. -/
def Handle_Collision (_g : Globals) : List Command :=
  [Command.Motor_Stop, Command.Clock_Delay1ms 1000] ++
  (List.range 5).foldl (fun out _ => out ++ Handle_Collision_flash) [] ++
  [Command.Motor_Backward 4500 4500, Command.Clock_Delay1ms 500,
   Command.Motor_Stop, Command.Clock_Delay1ms 500,
   Command.Motor_Right 4500 4500, Command.Clock_Delay1ms 1300,
   Command.Motor_Stop,
   Command.Note_Pattern_1]

/-- Function `void Bumper_Sensors_Handler(uint8_t bumper_sensor_state)`. -/
def Bumper_Sensors_Handler (_bumper_sensor_state : Nat) (g : Globals) : List Command :=
  Handle_Collision g

/-- A driver call that commands the motors. -/
def Command.isMotor : Command → Bool
  | Command.Motor_Forward _ _ => true
  | Command.Motor_Backward _ _ => true
  | Command.Motor_Left _ _ => true
  | Command.Motor_Right _ _ => true
  | Command.Motor_Stop => true
  | _ => false

/-- A blocking wait `Clock_Delay1ms`. -/
def Command.isDelay : Command → Bool
  | Command.Clock_Delay1ms _ => true
  | _ => false

/-! ## Runs of the two periodic handlers -/

/-- The body `Line_Follower_FSM_1()` of `Timer_A1_Periodic_Task` run `k` times in a row,
on the globals. -/
def Timer_A1_Periodic_Task_run : Nat → Globals → Globals
  | 0, g => g
  | k + 1, g => Timer_A1_Periodic_Task_run k (Line_Follower_FSM_1 g).1

/-- The globals after `n` ticks of `SysTick_Handler` from `Globals.initial`.  Tick number
`k` reads the sensor byte `sensor k`, and `tasks k` runs of `Timer_A1_Periodic_Task`
complete between tick `k` and tick `k + 1` (`tasks 0` of them before the first tick). -/
def Globals.after (impl : Int → Nat) (sensor tasks : Nat → Nat) : Nat → Option Globals
  | 0 => some (Timer_A1_Periodic_Task_run (tasks 0) Globals.initial)
  | n + 1 =>
    match Globals.after impl sensor tasks n with
    | none => none
    | some g =>
      match Line_Follower_Controller_2 impl g (sensor (n + 1)) with
      | none => none
      | some r => some (Timer_A1_Periodic_Task_run (tasks (n + 1)) r.1)

/-- The driver calls issued by tick number `n + 1` of such a run. -/
def SysTick_Handler_commands (impl : Int → Nat) (sensor tasks : Nat → Nat) (n : Nat) :
    Option (List Command) :=
  match Globals.after impl sensor tasks n with
  | none => none
  | some g =>
    match Line_Follower_Controller_2 impl g (sensor (n + 1)) with
    | none => none
    | some r => some r.2

/-- The schedule of the tick handler as the specification words it, by the counter value
`c` the tick has just stored: `Reflectance_Sensor_Start` when `c % 10 = 1`,
`Reflectance_Sensor_End` when `c % 10 = 2`, no driver call otherwise. -/
def Controller_2_commands (c : Nat) : List Command :=
  if c % 10 = 1 then [Command.Reflectance_Sensor_Start]
  else if c % 10 = 2 then [Command.Reflectance_Sensor_End]
  else []

/-- One way a target resolves the out-of-range conversion: through `int`, then truncated
to 16 bits, that is reduction modulo `2 ^ 16`. -/
def double_to_uint16_wrap : Int → Nat := fun x => to_uint16 x

/-- The globals of a run in the middle of a right pivot, just before the acquisition tick
number `12`: tick `2` read `0x01` (next state `R3`), the action of `R3` ran once and set
`ignore_left = 1`, and ticks `3` to `11` only counted. -/
def Globals.pivoting : Globals where
  integral := 0
  previous := -334
  PID := 58522
  Duty_Cycle_Left := 6500
  Duty_Cycle_Right := 6500
  Line_Sensor_Data := 0x01
  Line_Sensor_Position := 334
  SysTick_counter := 11
  dead_right := 1
  ignore_left := 1
  current_state := R3

/-! ## PWM timer and motor driver (`Timer_A0_PWM.c`, `Motor.c`) -/

/-- The registers of `TIMER_A0` that the PWM driver reads or writes.  `CCR[0]` holds the
period, `CCR[3]` and `CCR[4]` the two duty cycles. -/
structure Timer_A_Type where
  /-- Register `CTL`. -/
  CTL : Nat
  /-- Registers `CCTL[n]`. -/
  CCTL : Nat → Nat
  /-- Registers `CCR[n]`. -/
  CCR : Nat → Nat
  /-- Register `EX0`. -/
  EX0 : Nat

/-- Function `void Timer_A0_Update_Duty_Cycle_1(uint16_t duty_cycle_1)`. -/
def Timer_A0_Update_Duty_Cycle_1 (t : Timer_A_Type) (duty_cycle_1 : Nat) : Timer_A_Type :=
  if duty_cycle_1 ≥ t.CCR 0 then t
  else { t with CCR := Function.update t.CCR 3 duty_cycle_1 }

/-- Function `void Timer_A0_Update_Duty_Cycle_2(uint16_t duty_cycle_2)`. -/
def Timer_A0_Update_Duty_Cycle_2 (t : Timer_A_Type) (duty_cycle_2 : Nat) : Timer_A_Type :=
  if duty_cycle_2 ≥ t.CCR 0 then t
  else { t with CCR := Function.update t.CCR 4 duty_cycle_2 }

/-- The peripheral registers that `Motor.c` and `Timer_A0_PWM.c` touch: `TIMER_A0` and the
8-bit registers of the ports `P2`, `P3` and `P5`. -/
structure Hardware where
  /-- Peripheral `TIMER_A0`. -/
  TIMER_A0 : Timer_A_Type
  /-- Register `P2->SEL0`. -/
  P2_SEL0 : Nat
  /-- Register `P2->SEL1`. -/
  P2_SEL1 : Nat
  /-- Register `P2->DIR`. -/
  P2_DIR : Nat
  /-- Register `P3->SEL0`. -/
  P3_SEL0 : Nat
  /-- Register `P3->SEL1`. -/
  P3_SEL1 : Nat
  /-- Register `P3->DIR`. -/
  P3_DIR : Nat
  /-- Register `P3->OUT`. -/
  P3_OUT : Nat
  /-- Register `P5->SEL0`. -/
  P5_SEL0 : Nat
  /-- Register `P5->SEL1`. -/
  P5_SEL1 : Nat
  /-- Register `P5->DIR`. -/
  P5_DIR : Nat
  /-- Register `P5->OUT`. -/
  P5_OUT : Nat

/-- The C update `reg &= ~mask` on an 8-bit register. -/
def clear_bits (reg mask : Nat) : Nat := reg &&& (0xFF ^^^ mask)

/-- The C update `reg |= mask` on an 8-bit register. -/
def set_bits (reg mask : Nat) : Nat := reg ||| mask

/-- Function `void Timer_A0_PWM_Init(uint16_t period, uint16_t duty_cycle_1,
uint16_t duty_cycle_2)`. -/
def Timer_A0_PWM_Init (hw : Hardware) (period duty_cycle_1 duty_cycle_2 : Nat) : Hardware :=
  if duty_cycle_1 ≥ period then hw
  else if duty_cycle_2 ≥ period then hw
  else
    let t := hw.TIMER_A0
    let t1 := { t with CCR := Function.update t.CCR 0 period }
    let t2 := { t1 with EX0 := 0x0000 }
    let t3 := { t2 with CCTL := Function.update t2.CCTL 3 (t2.CCTL 3 ||| 0x0040) }
    let t4 := { t3 with CCR := Function.update t3.CCR 3 duty_cycle_1 }
    let t5 := { t4 with CCTL := Function.update t4.CCTL 4 (t4.CCTL 4 ||| 0x0040) }
    let t6 := { t5 with CCR := Function.update t5.CCR 4 duty_cycle_2 }
    let t7 := { t6 with CTL := t6.CTL ||| 0x02F0 }
    { hw with P2_SEL0 := set_bits hw.P2_SEL0 0xC0,
              P2_SEL1 := clear_bits hw.P2_SEL1 0xC0,
              P2_DIR := set_bits hw.P2_DIR 0xC0,
              TIMER_A0 := t7 }

/-- Function `void Motor_Init()`. -/
def Motor_Init (hw : Hardware) : Hardware :=
  let hw1 := { hw with P5_SEL0 := clear_bits hw.P5_SEL0 0x30,
                       P5_SEL1 := clear_bits hw.P5_SEL1 0x30,
                       P5_DIR := set_bits hw.P5_DIR 0x30,
                       P5_OUT := clear_bits hw.P5_OUT 0x30 }
  let hw2 := { hw1 with P3_SEL0 := clear_bits hw1.P3_SEL0 0xC0,
                        P3_SEL1 := clear_bits hw1.P3_SEL1 0xC0,
                        P3_DIR := set_bits hw1.P3_DIR 0xC0,
                        P3_OUT := clear_bits hw1.P3_OUT 0xC0 }
  Timer_A0_PWM_Init hw2 15000 0 0

/-- The two calls `Timer_A0_Update_Duty_Cycle_1(right_duty_cycle);
Timer_A0_Update_Duty_Cycle_2(left_duty_cycle);` that every motor function makes. -/
def Motor_update_duty_cycles (hw : Hardware) (left_duty_cycle right_duty_cycle : Nat) :
    Hardware :=
  let hw1 := { hw with TIMER_A0 := Timer_A0_Update_Duty_Cycle_1 hw.TIMER_A0 right_duty_cycle }
  { hw1 with TIMER_A0 := Timer_A0_Update_Duty_Cycle_2 hw1.TIMER_A0 left_duty_cycle }

/-- Function `void Motor_Forward(uint16_t left_duty_cycle, uint16_t right_duty_cycle)`. -/
def Motor_Forward (hw : Hardware) (left_duty_cycle right_duty_cycle : Nat) : Hardware :=
  let hw1 := { hw with P5_OUT := clear_bits hw.P5_OUT 0x30 }
  let hw2 := Motor_update_duty_cycles hw1 left_duty_cycle right_duty_cycle
  { hw2 with P3_OUT := set_bits hw2.P3_OUT 0xC0 }

/-- Function `void Motor_Right(uint16_t left_duty_cycle, uint16_t right_duty_cycle)`. -/
def Motor_Right (hw : Hardware) (left_duty_cycle right_duty_cycle : Nat) : Hardware :=
  let hw1 := { hw with P5_OUT := clear_bits hw.P5_OUT 0x10 }
  let hw2 := { hw1 with P5_OUT := set_bits hw1.P5_OUT 0x20 }
  let hw3 := Motor_update_duty_cycles hw2 left_duty_cycle right_duty_cycle
  { hw3 with P3_OUT := set_bits hw3.P3_OUT 0xC0 }

/-- Function `void Motor_Left(uint16_t left_duty_cycle, uint16_t right_duty_cycle)`. -/
def Motor_Left (hw : Hardware) (left_duty_cycle right_duty_cycle : Nat) : Hardware :=
  let hw1 := { hw with P5_OUT := set_bits hw.P5_OUT 0x10 }
  let hw2 := { hw1 with P5_OUT := clear_bits hw1.P5_OUT 0x20 }
  let hw3 := Motor_update_duty_cycles hw2 left_duty_cycle right_duty_cycle
  { hw3 with P3_OUT := set_bits hw3.P3_OUT 0xC0 }

/-- Function `void Motor_Backward(uint16_t left_duty_cycle, uint16_t right_duty_cycle)`. -/
def Motor_Backward (hw : Hardware) (left_duty_cycle right_duty_cycle : Nat) : Hardware :=
  let hw1 := { hw with P5_OUT := set_bits hw.P5_OUT 0x30 }
  let hw2 := Motor_update_duty_cycles hw1 left_duty_cycle right_duty_cycle
  { hw2 with P3_OUT := set_bits hw2.P3_OUT 0xC0 }

/-- Function `void Motor_Stop()`. -/
def Motor_Stop (hw : Hardware) : Hardware :=
  let hw1 := { hw with P3_OUT := clear_bits hw.P3_OUT 0xC0 }
  let hw2 := { hw1 with P5_OUT := clear_bits hw1.P5_OUT 0x30 }
  Motor_update_duty_cycles hw2 0 0

/-- The duty cycles `(left, right)` a motor call hands to the driver; `Motor_Stop` hands
`0` for both.  The other driver calls are not motor calls. -/
def Command.duties : Command → Option (Nat × Nat)
  | Command.Motor_Forward l r => some (l, r)
  | Command.Motor_Backward l r => some (l, r)
  | Command.Motor_Left l r => some (l, r)
  | Command.Motor_Right l r => some (l, r)
  | Command.Motor_Stop => some (0, 0)
  | _ => none

/-- The effect of a driver call on the registers of `Hardware`: the motor calls run the
functions of `Motor.c`; the LED, sensor, delay and buzzer calls work on other
peripherals. -/
def Command.run (hw : Hardware) : Command → Hardware
  | Command.Motor_Forward l r => LineFollower.Motor_Forward hw l r
  | Command.Motor_Backward l r => LineFollower.Motor_Backward hw l r
  | Command.Motor_Left l r => LineFollower.Motor_Left hw l r
  | Command.Motor_Right l r => LineFollower.Motor_Right hw l r
  | Command.Motor_Stop => LineFollower.Motor_Stop hw
  | _ => hw

/-- A state of the peripheral registers with every register cleared. -/
def Hardware.zero : Hardware where
  TIMER_A0 := { CTL := 0, CCTL := fun _ => 0, CCR := fun _ => 0, EX0 := 0 }
  P2_SEL0 := 0
  P2_SEL1 := 0
  P2_DIR := 0
  P3_SEL0 := 0
  P3_SEL1 := 0
  P3_DIR := 0
  P3_OUT := 0
  P5_SEL0 := 0
  P5_SEL1 := 0
  P5_DIR := 0
  P5_OUT := 0

/-- A driver call with the duty-cycle arguments erased: what is left of a motor call is its
direction (forward, backward, left pivot, right pivot, stop). -/
def Command.withoutDuty : Command → Command
  | Command.Motor_Forward _ _ => Command.Motor_Forward 0 0
  | Command.Motor_Backward _ _ => Command.Motor_Backward 0 0
  | Command.Motor_Left _ _ => Command.Motor_Left 0 0
  | Command.Motor_Right _ _ => Command.Motor_Right 0 0
  | c => c

/-! ## The transition, branch by branch -/

/-- The assignments to `current_state` in the `if`/`else if` chain of
`Line_Follower_Controller_2`, one constructor per assignment, in source order. -/
inductive Branch
  | dead_end_to_center
  | dead_end_stays
  | r3_to_r1
  | r3_stays
  | data_zero
  | right_pattern
  | left_pattern
  | offset_right
  | offset_left
  | offset_center
  | final_else
  deriving DecidableEq, Repr

/-- The state each assignment of the chain stores. -/
def Branch.state : Branch → Line_Follower_State
  | Branch.dead_end_to_center => CENTER
  | Branch.dead_end_stays => DEAD_END
  | Branch.r3_to_r1 => R1
  | Branch.r3_stays => R3
  | Branch.data_zero => DEAD_END
  | Branch.right_pattern => R3
  | Branch.left_pattern => LEFT_T
  | Branch.offset_right => R1
  | Branch.offset_left => L1
  | Branch.offset_center => CENTER
  | Branch.final_else => DEAD_END

/-- The same `if`/`else if` chain as `Line_Follower_Controller_2_transition`, returning
which assignment is executed instead of the state it stores. -/
def Line_Follower_Controller_2_branch (current_state : Line_Follower_State)
    (Line_Sensor_Data : Nat) (Line_Sensor_Position : Int) : Branch :=
  if current_state = DEAD_END then
    if -48 < Line_Sensor_Position ∧ Line_Sensor_Position < 48 then
      Branch.dead_end_to_center
    else Branch.dead_end_stays
  else if current_state = R3 then
    if Line_Sensor_Position > 48 ∧ Line_Sensor_Position < 238 then Branch.r3_to_r1
    else Branch.r3_stays
  else if Line_Sensor_Data = 0 then Branch.data_zero
  else if Line_Sensor_Data &&& c_bool ((0xF : Int) = 0xF) ≠ 0 then Branch.right_pattern
  else if Line_Sensor_Data &&& c_bool ((0xF0 : Int) = 0xF0) ≠ 0 then Branch.left_pattern
  else if Line_Sensor_Position ≥ 48 then Branch.offset_right
  else if Line_Sensor_Position ≤ -48 then Branch.offset_left
  else if -48 < Line_Sensor_Position ∧ Line_Sensor_Position < 48 then Branch.offset_center
  else Branch.final_else

/-! ## Values returned by the corrector over a run; the mirrored bitmap -/

/-- The values `pidController` returns when called on a sequence of measurements, one
call after the other, in order. -/
def pidController_outputs (g : Globals) : List Int → List Int
  | [] => []
  | m :: ms => (pidController g m).1 :: pidController_outputs (pidController g m).2 ms

/-- The bitmap of the mirrored sensor array: bit `i` of `mirror b` is bit `7 - i` of
`b`. -/
def mirror (b : Nat) : Nat :=
  (List.range 8).foldl (fun acc i => if b.testBit (7 - i) then acc ||| (1 <<< i) else acc) 0

/-! ## Theorems -/

/-! ### Position estimator -/

/-- On every byte the estimator returns a value: when the bitmap is non-zero the loop has
counted at least one sensor, so the division is defined. -/
theorem Reflectance_Sensor_Position_total :
    ∀ data : Nat, data < 256 → (Reflectance_Sensor_Position data).isSome = true := by
  decide!

/-- Claim C1. For every non-zero 8-bit bitmap the estimator returns the mean of the weights
of the set bits, the quotient truncated toward zero (`0x70` has mean `-428 / 3`, returned
as `-142`); in particular `0x18` gives `0`, `0x01` gives `334` and `0x80` gives `-334`. -/
theorem Reflectance_Sensor_Position_is_mean :
    (∀ b : Nat, b < 256 → b ≠ 0 →
      Reflectance_Sensor_Position b = some (meanActiveWeight b)) ∧
    Reflectance_Sensor_Position 0x18 = some 0 ∧
    Reflectance_Sensor_Position 0x01 = some 334 ∧
    Reflectance_Sensor_Position 0x80 = some (-334) ∧
    Reflectance_Sensor_Position 0x70 = some (-142) := by
  refine ⟨?_, by decide, by decide, by decide, by decide⟩
  decide!

/-- Witness for C1 at the bitmap `0x18` (the two centre sensors). -/
theorem Reflectance_Sensor_Position_is_mean_witness :
    (0x18 : Nat) < 256 ∧ (0x18 : Nat) ≠ 0 ∧
      Reflectance_Sensor_Position 0x18 = some (meanActiveWeight 0x18) :=
  ⟨by decide, by decide,
    Reflectance_Sensor_Position_is_mean.1 0x18 (by decide) (by decide)⟩

/-- Claim C2. On the all-zero bitmap the estimator returns the sentinel `335`, which is
`Weight[0] + 1`; no division takes place: the loop would leave `count = 0`, on which the
division is undefined, yet the call returns a value. -/
theorem Reflectance_Sensor_Position_zero :
    Reflectance_Sensor_Position 0x00 = some 335 ∧
    (335 : Int) = Weight.getD 0 0 + 1 ∧
    (Position_loop 0x00).2 = 0 ∧
    c_div (Position_loop 0x00).1 (Position_loop 0x00).2 = none := by
  decide

/-! ### Mixer and duty-cycle band -/

/-- Whatever `PID` holds, the mixer block leaves both duty cycles in the band. -/
theorem mixer_band (g : Globals) :
    Duty_Cycles_in_band (Line_Follower_Controller_2_mixer g) := by
  unfold Duty_Cycles_in_band Line_Follower_Controller_2_mixer
  simp only [PWM_MIN, PWM_MAX, PWM_NOMINAL, PWM_SWING, to_uint16]
  split_ifs <;> dsimp only at * <;> omega

/-- The mixer block writes the two duty cycles and nothing else. -/
theorem mixer_frame (g : Globals) :
    (Line_Follower_Controller_2_mixer g).current_state = g.current_state ∧
    (Line_Follower_Controller_2_mixer g).Line_Sensor_Data = g.Line_Sensor_Data ∧
    (Line_Follower_Controller_2_mixer g).Line_Sensor_Position = g.Line_Sensor_Position ∧
    (Line_Follower_Controller_2_mixer g).PID = g.PID ∧
    (Line_Follower_Controller_2_mixer g).integral = g.integral ∧
    (Line_Follower_Controller_2_mixer g).previous = g.previous ∧
    (Line_Follower_Controller_2_mixer g).SysTick_counter = g.SysTick_counter ∧
    (Line_Follower_Controller_2_mixer g).dead_right = g.dead_right ∧
    (Line_Follower_Controller_2_mixer g).ignore_left = g.ignore_left := by
  unfold Line_Follower_Controller_2_mixer
  dsimp only
  split_ifs <;> exact ⟨rfl, rfl, rfl, rfl, rfl, rfl, rfl, rfl, rfl⟩

/-- The byte the estimator is called on in an acquisition tick fits in 8 bits. -/
theorem acquired_data_lt (g : Globals) (sensor : Nat) :
    (if g.ignore_left = (1 : Int) then (sensor % 256) >>> 1 else sensor % 256) < 256 := by
  have h : sensor % 256 < 256 := Nat.mod_lt _ (by decide)
  split_ifs
  · rw [Nat.shiftRight_eq_div_pow]; omega
  · exact h

/-- An acquisition tick (counter value `2` modulo `10` after the increment) returns, and
its result is described field by field. -/
theorem Controller_2_acquisition_state (impl : Int → Nat) (g : Globals) (sensor : Nat)
    (h : ((g.SysTick_counter + 1) % 4294967296) % 10 = 2) :
    ∃ g1 out d p, Line_Follower_Controller_2 impl g sensor = some (g1, out) ∧
      d = (if g.ignore_left = (1 : Int) then (sensor % 256) >>> 1 else sensor % 256) ∧
      Reflectance_Sensor_Position d = some p ∧
      g1.Line_Sensor_Data = d ∧ g1.Line_Sensor_Position = p ∧
      g1.current_state = Line_Follower_Controller_2_transition g.current_state d p ∧
      g1.PID = double_to_uint16 impl (pidController g p).1 ∧
      Duty_Cycles_in_band g1 := by
  have hd := Reflectance_Sensor_Position_total _ (acquired_data_lt g sensor)
  obtain ⟨p, hp⟩ := Option.isSome_iff_exists.mp hd
  unfold Line_Follower_Controller_2
  simp only [h, if_true]
  by_cases hi : g.ignore_left = 1
  · simp only [hi, if_true] at hp ⊢
    rw [hp]
    refine ⟨_, _, _, p, rfl, rfl, hp, ?_, ?_, ?_, ?_, mixer_band _⟩
    · rw [(mixer_frame _).2.1]; rfl
    · rw [(mixer_frame _).2.2.1]; rfl
    · rw [(mixer_frame _).1]; rfl
    · rw [(mixer_frame _).2.2.2.1]; rfl
  · simp only [hi, if_false] at hp ⊢
    rw [hp]
    refine ⟨_, _, _, p, rfl, rfl, hp, ?_, ?_, ?_, ?_, mixer_band _⟩
    · rw [(mixer_frame _).2.1]; rfl
    · rw [(mixer_frame _).2.2.1]; rfl
    · rw [(mixer_frame _).1]; rfl
    · rw [(mixer_frame _).2.2.2.1]; rfl

/-- Any other tick returns and changes the counter only. -/
theorem Controller_2_idle (impl : Int → Nat) (g : Globals) (sensor : Nat)
    (h : ((g.SysTick_counter + 1) % 4294967296) % 10 ≠ 2) :
    ∃ out, Line_Follower_Controller_2 impl g sensor =
      some ({ g with SysTick_counter := (g.SysTick_counter + 1) % 4294967296 }, out) := by
  unfold Line_Follower_Controller_2
  simp only [h, if_false]
  exact ⟨_, rfl⟩

/-- The state-machine action leaves the duty cycles alone, except in `LEFT_T`, where it
sets both to `PWM_NOMINAL`. -/
theorem FSM_1_duty (g : Globals) :
    ((Line_Follower_FSM_1 g).1.Duty_Cycle_Left = g.Duty_Cycle_Left ∧
      (Line_Follower_FSM_1 g).1.Duty_Cycle_Right = g.Duty_Cycle_Right) ∨
    (g.current_state = Line_Follower_State.LEFT_T ∧
      (Line_Follower_FSM_1 g).1.Duty_Cycle_Left = 3500 ∧
      (Line_Follower_FSM_1 g).1.Duty_Cycle_Right = 3500) := by
  have h3500 : to_uint16 PWM_NOMINAL = 3500 := by decide
  unfold Line_Follower_FSM_1
  split
  case h_1 h => exact Or.inr ⟨h, h3500, h3500⟩
  all_goals exact Or.inl ⟨rfl, rfl⟩

/-- The state-machine action preserves the band. -/
theorem FSM_1_band (g : Globals) (h : Duty_Cycles_in_band g) :
    Duty_Cycles_in_band (Line_Follower_FSM_1 g).1 := by
  rcases FSM_1_duty g with ⟨hl, hr⟩ | ⟨-, hl, hr⟩
  · unfold Duty_Cycles_in_band at h ⊢
    rw [hl, hr]
    exact h
  · unfold Duty_Cycles_in_band
    rw [hl, hr]
    decide

/-- The band is an invariant of the states reachable at handler boundaries. -/
theorem Reachable_band (impl : Int → Nat) (g : Globals) (h : Reachable impl g) :
    Duty_Cycles_in_band g := by
  induction h with
  | initial => unfold Duty_Cycles_in_band; decide
  | @tick g g1 out sensor _ hstep ih =>
    by_cases hph : ((g.SysTick_counter + 1) % 4294967296) % 10 = 2
    · obtain ⟨g2, o, d, p, hk, -, -, -, -, -, -, hband⟩ :=
        Controller_2_acquisition_state impl g sensor hph
      rw [hk] at hstep
      obtain ⟨rfl, -⟩ := Prod.mk.inj (Option.some.inj hstep)
      exact hband
    · obtain ⟨o, hk⟩ := Controller_2_idle impl g sensor hph
      rw [hk] at hstep
      obtain ⟨rfl, -⟩ := Prod.mk.inj (Option.some.inj hstep)
      exact ih
  | task _ ih => exact FSM_1_band _ ih

/-- Claim C3. The band is `[500, 6500]`.  Whatever the globals hold before (in particular
whatever value `PID` holds), the mixer-and-clamp block leaves both duty cycles in the band;
every acquisition tick returns with both duty cycles in the band, for every prior state,
sensor byte and conversion behaviour; the initial duty cycles are `3500`; the
state-machine action either leaves them alone or, in `LEFT_T`, sets both to `3500`; hence
the band holds in every state reachable at handler boundaries. -/
theorem duty_cycles_stay_in_band :
    PWM_MIN = 500 ∧ PWM_MAX = 6500 ∧
    (∀ g : Globals, Duty_Cycles_in_band (Line_Follower_Controller_2_mixer g)) ∧
    (∀ (impl : Int → Nat) (g : Globals) (sensor : Nat),
      ((g.SysTick_counter + 1) % 4294967296) % 10 = 2 →
      ∃ g1 out, Line_Follower_Controller_2 impl g sensor = some (g1, out) ∧
        Duty_Cycles_in_band g1) ∧
    (Globals.initial.Duty_Cycle_Left = 3500 ∧ Globals.initial.Duty_Cycle_Right = 3500) ∧
    (∀ g : Globals,
      ((Line_Follower_FSM_1 g).1.Duty_Cycle_Left = g.Duty_Cycle_Left ∧
        (Line_Follower_FSM_1 g).1.Duty_Cycle_Right = g.Duty_Cycle_Right) ∨
      (g.current_state = Line_Follower_State.LEFT_T ∧
        (Line_Follower_FSM_1 g).1.Duty_Cycle_Left = 3500 ∧
        (Line_Follower_FSM_1 g).1.Duty_Cycle_Right = 3500)) ∧
    (∀ (impl : Int → Nat) (g : Globals), Reachable impl g → Duty_Cycles_in_band g) := by
  refine ⟨by decide, by decide, mixer_band, ?_, ⟨by decide, by decide⟩, FSM_1_duty,
    Reachable_band⟩
  intro impl g sensor h
  obtain ⟨g1, out, -, -, hk, -, -, -, -, -, -, hband⟩ :=
    Controller_2_acquisition_state impl g sensor h
  exact ⟨g1, out, hk, hband⟩

/-- Witness for C3: the first acquisition tick, with the leftmost sensor on the line. -/
theorem duty_cycles_stay_in_band_witness :
    ((Globals.first.SysTick_counter + 1) % 4294967296) % 10 = 2 ∧
    ∃ g1 out, Line_Follower_Controller_2 (fun _ => 0) Globals.first 0x80 = some (g1, out) ∧
      Duty_Cycles_in_band g1 :=
  ⟨by decide, duty_cycles_stay_in_band.2.2.2.1 (fun _ => 0) Globals.first 0x80 (by decide)⟩

/-- Claim C4, the code evaluated where it departs from the claim.  On the first
acquisition tick with the leftmost sensor alone on the line (`0x80`, offset `-334`) the
corrector returns `7014`, which `PID` holds exactly.  The claim asks for
`Duty_Cycle_Left = clamp (3500 - 7014) = 500`; the code stores `3500 - 7014` into the
unsigned 16-bit variable first (`62022`) and clamps that, so both duty cycles end at
`6500`. -/
theorem mixer_left_wraps_above_band :
    ∀ impl : Int → Nat,
      (pidController Globals.first (-334)).1 = 7014 ∧
      to_uint16 (PWM_NOMINAL - 7014) = 62022 ∧
      Line_Follower_Controller_2 impl Globals.first 0x80 = some (
        { integral := 0, previous := 334, PID := 7014,
          Duty_Cycle_Left := 6500, Duty_Cycle_Right := 6500,
          Line_Sensor_Data := 0x80, Line_Sensor_Position := -334,
          SysTick_counter := 2, dead_right := 0, ignore_left := 0,
          current_state := Line_Follower_State.L1 }, [Command.Reflectance_Sensor_End]) ∧
      specClamp (PWM_NOMINAL + 7014) = 6500 ∧
      specClamp (PWM_NOMINAL - 7014) = 500 := by
  intro impl
  have h80 : Reflectance_Sensor_Position 0x80 = some (-334) := by decide
  refine ⟨by decide, by decide, ?_, by decide, by decide⟩
  simp [Line_Follower_Controller_2, Globals.first, Globals.initial, h80,
    pidController, double_to_uint16, Line_Follower_Controller_2_transition,
    Line_Follower_Controller_2_mixer, to_uint16, PWM_NOMINAL, PWM_MIN, PWM_MAX, PWM_SWING,
    desired, Kp, Ki, Kd, c_bool]

/-! ### PID corrector -/

/-- Claim C5. For every state of the globals and every measurement `m`, with
`desired = 0`, `Kp = 20`, `Ki = 0`, `Kd = 1` and `e = 0 - m`, the corrector returns
`Kp * e + integral' + Kd * (e - previous)` where `integral' = integral + Ki * e` is the
new accumulator, and it leaves `previous = e`. -/
theorem pidController_formula (g : Globals) (m : Int) :
    desired = 0 ∧ Kp = 20 ∧ Ki = 0 ∧ Kd = 1 ∧
    (pidController g m).1 =
      20 * (0 - m) + (g.integral + 0 * (0 - m)) + 1 * ((0 - m) - g.previous) ∧
    (pidController g m).2.integral = g.integral + 0 * (0 - m) ∧
    (pidController g m).2.previous = 0 - m :=
  ⟨rfl, rfl, rfl, rfl, rfl, rfl, rfl⟩

/-- A zero accumulator stays zero over any run of calls. -/
theorem pidController_run_integral (g : Globals) (h : g.integral = 0) (ms : List Int) :
    (pidController_run g ms).integral = 0 := by
  induction ms generalizing g with
  | nil => exact h
  | cons m ms ih =>
    apply ih
    simp [pidController, Ki, h]

/-- Claim C6. From the initial globals, for every finite sequence of measurements and
every number `k` of calls made so far, the accumulator `integral` is `0` after the `k`-th
call. -/
theorem integral_stays_zero (ms : List Int) (k : Nat) :
    (pidController_run Globals.initial (ms.take k)).integral = 0 :=
  pidController_run_integral _ rfl _

/-! ### Transition -/

/-- No branch that assigns `LEFT_T` can be taken: its test `Line_Sensor_Data & 1` has
already sent the control to the `R3` branch. -/
theorem transition_ne_LEFT_T (cur : Line_Follower_State) (b : Nat) (pos : Int) :
    Line_Follower_Controller_2_transition cur b pos ≠ Line_Follower_State.LEFT_T := by
  unfold Line_Follower_Controller_2_transition
  simp only [c_bool, if_true]
  split_ifs <;> simp_all

/-- Claim C7, the code evaluated where it departs from the claim.  From `CENTER`, the
bitmap `0x01` (offset `334`) has only one of the four rightmost bits set, yet the next
state is `R3`: the test the code performs is `Line_Sensor_Data & 1`. -/
theorem transition_R3_without_four_right_bits :
    Reflectance_Sensor_Position 0x01 = some 334 ∧
    ((0x01 : Nat) &&& 0x0F) ≠ 0x0F ∧
    ((0x01 : Nat) &&& c_bool ((0xF : Int) = 0xF)) ≠ 0 ∧
    Line_Follower_Controller_2_transition CENTER 0x01 334 = R3 := by
  decide

/-- Claim C8, the code evaluated where it departs from the claim.  From `CENTER`, the
bitmap `0xF0` (offset `-190`) has all four leftmost bits set and not all four rightmost
ones, yet the next state is `L1`; and for no state, bitmap and offset at all is the next
state `LEFT_T`. -/
theorem transition_never_LEFT_T :
    Reflectance_Sensor_Position 0xF0 = some (-190) ∧
    ((0xF0 : Nat) &&& 0x0F) ≠ 0x0F ∧
    ((0xF0 : Nat) &&& 0xF0) = 0xF0 ∧
    Line_Follower_Controller_2_transition CENTER 0xF0 (-190) = L1 ∧
    (∀ (cur : Line_Follower_State) (b : Nat) (pos : Int),
      Line_Follower_Controller_2_transition cur b pos ≠ LEFT_T) :=
  ⟨by decide, by decide, by decide, by decide, transition_ne_LEFT_T⟩

/-- Claim C9, the code evaluated on the scenario of the claim.  State `CENTER`, bitmap
`0x01`, offset `334`: the bitmap matches neither four-bit pattern and the offset is at
least `48`, yet the next state is `R3`, not `R1`, and the action of that state commands a
right pivot (`Motor_Right`), not forward. -/
theorem transition_scenario_0x01 (g : Globals) :
    Reflectance_Sensor_Position 0x01 = some 334 ∧
    ((0x01 : Nat) &&& 0x0F) ≠ 0x0F ∧ ((0x01 : Nat) &&& 0xF0) ≠ 0xF0 ∧
    (334 : Int) ≥ 48 ∧
    Line_Follower_Controller_2_transition CENTER 0x01 334 ≠ R1 ∧
    (Line_Follower_FSM_1
      { g with current_state := Line_Follower_Controller_2_transition CENTER 0x01 334 }).2 =
      [Command.LED1_Output RGB_LED_RED, Command.LED2_Output RGB_LED_RED,
        Command.Motor_Right g.Duty_Cycle_Left g.Duty_Cycle_Right] :=
  ⟨by decide, by decide, by decide, by decide, by decide, rfl⟩

/-- Claim C10, the code evaluated where it departs from the claim.  From `CENTER`, the
bitmap `0x81` (both outermost sensors, offset `0`) is non-zero, matches neither four-bit
pattern and has `-48 < offset < 48`, yet the next state is `R3`, not `CENTER`.  The
scenario of the claim itself does hold: bitmap `0x18`, offset `0` gives `CENTER`, whose
action commands forward. -/
theorem transition_centered_0x81 (g : Globals) :
    Reflectance_Sensor_Position 0x81 = some 0 ∧
    (0x81 : Nat) ≠ 0 ∧ ((0x81 : Nat) &&& 0x0F) ≠ 0x0F ∧ ((0x81 : Nat) &&& 0xF0) ≠ 0xF0 ∧
    Line_Follower_Controller_2_transition CENTER 0x81 0 = R3 ∧
    Reflectance_Sensor_Position 0x18 = some 0 ∧
    Line_Follower_Controller_2_transition CENTER 0x18 0 = CENTER ∧
    (Line_Follower_FSM_1 { g with current_state := CENTER }).2 =
      [Command.LED1_Output RGB_LED_GREEN, Command.LED2_Output RGB_LED_GREEN,
        Command.Motor_Forward g.Duty_Cycle_Left g.Duty_Cycle_Right] :=
  ⟨by decide, by decide, by decide, by decide, by decide, by decide, by decide, rfl⟩

/-! ### Tick handler, written out -/

/-- An acquisition tick written out: the estimator runs on the (possibly shifted) byte `d`
and returns `p`, and the globals and driver calls after the tick are the ones shown. -/
theorem Controller_2_acquisition_eq (impl : Int → Nat) (g : Globals) (sensor : Nat)
    (h : ((g.SysTick_counter + 1) % 4294967296) % 10 = 2) :
    ∃ d p, d = (if g.ignore_left = (1 : Int) then (sensor % 256) >>> 1 else sensor % 256) ∧
      Reflectance_Sensor_Position d = some p ∧
      Line_Follower_Controller_2 impl g sensor = some
        (Line_Follower_Controller_2_mixer
          { g with SysTick_counter := (g.SysTick_counter + 1) % 4294967296,
                   Line_Sensor_Data := d,
                   Line_Sensor_Position := p,
                   integral := (pidController g p).2.integral,
                   previous := (pidController g p).2.previous,
                   PID := double_to_uint16 impl (pidController g p).1,
                   current_state :=
                     Line_Follower_Controller_2_transition g.current_state d p },
         [Command.Reflectance_Sensor_End]) := by
  have hd := Reflectance_Sensor_Position_total _ (acquired_data_lt g sensor)
  obtain ⟨p, hp⟩ := Option.isSome_iff_exists.mp hd
  refine ⟨_, p, rfl, hp, ?_⟩
  unfold Line_Follower_Controller_2
  have h1 : ¬ ((g.SysTick_counter + 1) % 4294967296) % 10 = 1 := by omega
  simp only [h, h1, if_true, if_false]
  by_cases hi : g.ignore_left = 1
  · simp only [hi, if_true] at hp ⊢
    rw [hp]
    rfl
  · simp only [hi, if_false] at hp ⊢
    rw [hp]
    rfl

/-- Any other tick written out: only the counter changes, and the only driver call is
`Reflectance_Sensor_Start`, issued when the counter is `1` modulo `10`. -/
theorem Controller_2_idle_eq (impl : Int → Nat) (g : Globals) (sensor : Nat)
    (h : ((g.SysTick_counter + 1) % 4294967296) % 10 ≠ 2) :
    Line_Follower_Controller_2 impl g sensor =
      some ({ g with SysTick_counter := (g.SysTick_counter + 1) % 4294967296 },
        if ((g.SysTick_counter + 1) % 4294967296) % 10 = 1 then
          [Command.Reflectance_Sensor_Start] else []) := by
  unfold Line_Follower_Controller_2
  simp only [h, if_false]

/-! ### State machine action and transitions from `DEAD_END` and `R3` -/

/-- The action of `Line_Follower_FSM_1` state by state: driver calls and flags. -/
theorem FSM_1_cases (g : Globals) :
    (Line_Follower_FSM_1 g).1.current_state = g.current_state ∧
    (g.current_state = CENTER →
      (Line_Follower_FSM_1 g).2 =
        [Command.LED1_Output RGB_LED_GREEN, Command.LED2_Output RGB_LED_GREEN,
          Command.Motor_Forward g.Duty_Cycle_Left g.Duty_Cycle_Right] ∧
      (Line_Follower_FSM_1 g).1.ignore_left = 0 ∧
      (Line_Follower_FSM_1 g).1.dead_right = g.dead_right) ∧
    (g.current_state = L1 →
      (Line_Follower_FSM_1 g).2 =
        [Command.LED1_Output RGB_LED_OFF, Command.LED2_Output RGB_LED_YELLOW,
          Command.Motor_Forward g.Duty_Cycle_Left g.Duty_Cycle_Right] ∧
      (Line_Follower_FSM_1 g).1.ignore_left = 0 ∧
      (Line_Follower_FSM_1 g).1.dead_right = 0) ∧
    (g.current_state = R1 →
      (Line_Follower_FSM_1 g).2 =
        [Command.LED1_Output RGB_LED_YELLOW, Command.LED2_Output RGB_LED_OFF,
          Command.Motor_Forward g.Duty_Cycle_Left g.Duty_Cycle_Right] ∧
      (Line_Follower_FSM_1 g).1.ignore_left = 0 ∧
      (Line_Follower_FSM_1 g).1.dead_right = 1) ∧
    (g.current_state = R3 →
      (Line_Follower_FSM_1 g).2 =
        [Command.LED1_Output RGB_LED_RED, Command.LED2_Output RGB_LED_RED,
          Command.Motor_Right g.Duty_Cycle_Left g.Duty_Cycle_Right] ∧
      (Line_Follower_FSM_1 g).1.ignore_left = 1 ∧
      (Line_Follower_FSM_1 g).1.dead_right = 1) ∧
    (g.current_state = LEFT_T →
      (Line_Follower_FSM_1 g).2 =
        [Command.LED1_Output RGB_LED_BLUE, Command.LED2_Output RGB_LED_BLUE,
          Command.Motor_Forward 3500 3500] ∧
      (Line_Follower_FSM_1 g).1.ignore_left = 0 ∧
      (Line_Follower_FSM_1 g).1.dead_right = 0) ∧
    (g.current_state = DEAD_END →
      (Line_Follower_FSM_1 g).2 =
        [Command.Motor_Left g.Duty_Cycle_Left g.Duty_Cycle_Right,
          Command.LED2_Output RGB_LED_SKY_BLUE] ∧
      (Line_Follower_FSM_1 g).1.ignore_left = 0 ∧
      (Line_Follower_FSM_1 g).1.dead_right = g.dead_right) := by
  have h3500 : to_uint16 PWM_NOMINAL = 3500 := by decide
  refine ⟨?_, ?_, ?_, ?_, ?_, ?_, ?_⟩
  · unfold Line_Follower_FSM_1
    split <;> rfl
  all_goals
    intro h
    unfold Line_Follower_FSM_1
    split <;> first
      | exact ⟨rfl, rfl, rfl⟩
      | (simp only [h3500]; done)
      | simp_all

/-- Claim C11. For every current state other than `R3`, an acquisition tick whose bitmap
(after the `ignore_left` shift, if any) is all zero returns with offset `335` and next
state `DEAD_END`, and the action of `DEAD_END` commands a left pivot (`Motor_Left`). -/
theorem acquisition_on_zero_bitmap (impl : Int → Nat) (g : Globals) (sensor : Nat)
    (hph : ((g.SysTick_counter + 1) % 4294967296) % 10 = 2)
    (hs : g.current_state ≠ R3)
    (hz : (if g.ignore_left = (1 : Int) then (sensor % 256) >>> 1 else sensor % 256) = 0) :
    ∃ g1 out, Line_Follower_Controller_2 impl g sensor = some (g1, out) ∧
      g1.Line_Sensor_Data = 0 ∧
      g1.Line_Sensor_Position = 335 ∧
      g1.current_state = DEAD_END ∧
      (Line_Follower_FSM_1 g1).2 =
        [Command.Motor_Left g1.Duty_Cycle_Left g1.Duty_Cycle_Right,
          Command.LED2_Output RGB_LED_SKY_BLUE] := by
  obtain ⟨g1, out, d, p, hk, hd, hp, hdata, hpos, hst, -, -⟩ :=
    Controller_2_acquisition_state impl g sensor hph
  rw [hz] at hd
  subst hd
  have hp335 : p = 335 := by
    have h0 : Reflectance_Sensor_Position 0 = some 335 := by decide
    rw [h0] at hp
    exact (Option.some.inj hp).symm
  subst hp335
  have hdead : g1.current_state = DEAD_END := by
    rw [hst]
    unfold Line_Follower_Controller_2_transition
    by_cases hde : g.current_state = DEAD_END
    · simp [hde]
    · simp [hde, hs]
  exact ⟨g1, out, hk, hdata, hpos, hdead, ((FSM_1_cases g1).2.2.2.2.2.2 hdead).1⟩

/-- Witness for C11: state `CENTER`, bitmap `0x00`, on the first acquisition tick. -/
theorem acquisition_on_zero_bitmap_witness :
    ((Globals.first.SysTick_counter + 1) % 4294967296) % 10 = 2 ∧
    Globals.first.current_state = CENTER ∧
    ∃ g1 out, Line_Follower_Controller_2 (fun _ => 0) Globals.first 0x00 = some (g1, out) ∧
      g1.Line_Sensor_Data = 0 ∧
      g1.Line_Sensor_Position = 335 ∧
      g1.current_state = DEAD_END ∧
      (Line_Follower_FSM_1 g1).2 =
        [Command.Motor_Left g1.Duty_Cycle_Left g1.Duty_Cycle_Right,
          Command.LED2_Output RGB_LED_SKY_BLUE] :=
  ⟨by decide, rfl,
    acquisition_on_zero_bitmap (fun _ => 0) Globals.first 0x00 (by decide) (by decide)
      (by decide)⟩

/-- Claim C12. From `DEAD_END`, for every bitmap and offset, the next state is `CENTER`
when `-48 < offset < 48` and `DEAD_END` otherwise, whatever the bitmap; in particular
bitmap `0x18` with offset `0` gives `CENTER`. -/
theorem transition_from_DEAD_END (b : Nat) (pos : Int) :
    Line_Follower_Controller_2_transition DEAD_END b pos =
      (if -48 < pos ∧ pos < 48 then CENTER else DEAD_END) ∧
    Reflectance_Sensor_Position 0x18 = some 0 ∧
    Line_Follower_Controller_2_transition DEAD_END 0x18 0 = CENTER :=
  ⟨rfl, by decide, by decide⟩

/-- Claim C13. From `R3`, for every bitmap and offset, the next state is `R1` when
`48 < offset < 238` (both bounds strict) and `R3` otherwise; an all-zero bitmap (offset
`335`) and the offsets `48` and `238` keep the state `R3`. -/
theorem transition_from_R3 (b : Nat) (pos : Int) :
    Line_Follower_Controller_2_transition R3 b pos =
      (if 48 < pos ∧ pos < 238 then R1 else R3) ∧
    Reflectance_Sensor_Position 0x00 = some 335 ∧
    Line_Follower_Controller_2_transition R3 0x00 335 = R3 ∧
    Line_Follower_Controller_2_transition R3 b 48 = R3 ∧
    Line_Follower_Controller_2_transition R3 b 238 = R3 :=
  ⟨rfl, by decide, by decide, rfl, rfl⟩

/-- Claim C14. One call of `Line_Follower_FSM_1` never changes `current_state`, and in
each of the six handled states it issues exactly one motor command and sets the flags as
in the table: `CENTER` forward, `ignore_left := 0`, `dead_right` unchanged; `L1` forward,
both flags `0`; `R1` forward, `ignore_left := 0`, `dead_right := 1`; `R3` right pivot,
both flags `1`; `LEFT_T` forward, both flags `0`; `DEAD_END` left pivot,
`ignore_left := 0`, `dead_right` unchanged. -/
theorem FSM_1_action_table (g : Globals) :
    (Line_Follower_FSM_1 g).1.current_state = g.current_state ∧
    (g.current_state = CENTER →
      (Line_Follower_FSM_1 g).2 =
        [Command.LED1_Output RGB_LED_GREEN, Command.LED2_Output RGB_LED_GREEN,
          Command.Motor_Forward g.Duty_Cycle_Left g.Duty_Cycle_Right] ∧
      (Line_Follower_FSM_1 g).1.ignore_left = 0 ∧
      (Line_Follower_FSM_1 g).1.dead_right = g.dead_right) ∧
    (g.current_state = L1 →
      (Line_Follower_FSM_1 g).2 =
        [Command.LED1_Output RGB_LED_OFF, Command.LED2_Output RGB_LED_YELLOW,
          Command.Motor_Forward g.Duty_Cycle_Left g.Duty_Cycle_Right] ∧
      (Line_Follower_FSM_1 g).1.ignore_left = 0 ∧
      (Line_Follower_FSM_1 g).1.dead_right = 0) ∧
    (g.current_state = R1 →
      (Line_Follower_FSM_1 g).2 =
        [Command.LED1_Output RGB_LED_YELLOW, Command.LED2_Output RGB_LED_OFF,
          Command.Motor_Forward g.Duty_Cycle_Left g.Duty_Cycle_Right] ∧
      (Line_Follower_FSM_1 g).1.ignore_left = 0 ∧
      (Line_Follower_FSM_1 g).1.dead_right = 1) ∧
    (g.current_state = R3 →
      (Line_Follower_FSM_1 g).2 =
        [Command.LED1_Output RGB_LED_RED, Command.LED2_Output RGB_LED_RED,
          Command.Motor_Right g.Duty_Cycle_Left g.Duty_Cycle_Right] ∧
      (Line_Follower_FSM_1 g).1.ignore_left = 1 ∧
      (Line_Follower_FSM_1 g).1.dead_right = 1) ∧
    (g.current_state = LEFT_T →
      (Line_Follower_FSM_1 g).2 =
        [Command.LED1_Output RGB_LED_BLUE, Command.LED2_Output RGB_LED_BLUE,
          Command.Motor_Forward 3500 3500] ∧
      (Line_Follower_FSM_1 g).1.ignore_left = 0 ∧
      (Line_Follower_FSM_1 g).1.dead_right = 0) ∧
    (g.current_state = DEAD_END →
      (Line_Follower_FSM_1 g).2 =
        [Command.Motor_Left g.Duty_Cycle_Left g.Duty_Cycle_Right,
          Command.LED2_Output RGB_LED_SKY_BLUE] ∧
      (Line_Follower_FSM_1 g).1.ignore_left = 0 ∧
      (Line_Follower_FSM_1 g).1.dead_right = g.dead_right) :=
  FSM_1_cases g

/-- Witness for C14: the initial globals, in state `CENTER`. -/
theorem FSM_1_action_table_witness :
    Globals.initial.current_state = CENTER ∧
    (Line_Follower_FSM_1 Globals.initial).2 =
      [Command.LED1_Output RGB_LED_GREEN, Command.LED2_Output RGB_LED_GREEN,
        Command.Motor_Forward Globals.initial.Duty_Cycle_Left
          Globals.initial.Duty_Cycle_Right] ∧
    (Line_Follower_FSM_1 Globals.initial).1.ignore_left = 0 ∧
    (Line_Follower_FSM_1 Globals.initial).1.dead_right = Globals.initial.dead_right :=
  ⟨rfl, (FSM_1_action_table Globals.initial).2.1 rfl⟩

/-! ### The `ignore_left` shift and the schedule of the tick handler -/

/-- Claim C15. In an acquisition tick the estimator and the tests of the transition both
work on the same byte `d`: the sensor byte shifted right by one bit when
`ignore_left = 1`, the sensor byte itself when `ignore_left = 0`.  The offset is
`Reflectance_Sensor_Position d` and the next state is the transition on `d` and that
offset. -/
theorem acquisition_uses_shifted_bitmap (impl : Int → Nat) (g : Globals) (sensor : Nat)
    (hph : ((g.SysTick_counter + 1) % 4294967296) % 10 = 2) :
    ∃ g1 out d p, Line_Follower_Controller_2 impl g sensor = some (g1, out) ∧
      (g.ignore_left = 1 → d = (sensor % 256) >>> 1) ∧
      (g.ignore_left = 0 → d = sensor % 256) ∧
      Reflectance_Sensor_Position d = some p ∧
      g1.Line_Sensor_Data = d ∧
      g1.Line_Sensor_Position = p ∧
      g1.current_state = Line_Follower_Controller_2_transition g.current_state d p := by
  obtain ⟨g1, out, d, p, hk, hd, hp, hdata, hpos, hst, -, -⟩ :=
    Controller_2_acquisition_state impl g sensor hph
  refine ⟨g1, out, d, p, hk, ?_, ?_, hp, hdata, hpos, hst⟩
  · intro hi
    rw [hd, if_pos hi]
  · intro hi
    have hne : ¬ g.ignore_left = 1 := by rw [hi]; decide
    rw [hd, if_neg hne]

/-- Witness for C15: `ignore_left = 1` and sensor byte `0x30`; the estimator and the
transition see `0x18`. -/
theorem acquisition_uses_shifted_bitmap_witness :
    (({ Globals.first with ignore_left := 1 } : Globals).SysTick_counter + 1)
      % 4294967296 % 10 = 2 ∧
    ∃ g1 out,
      Line_Follower_Controller_2 (fun _ => 0) { Globals.first with ignore_left := 1 } 0x30 =
        some (g1, out) ∧
      g1.Line_Sensor_Data = 0x18 ∧
      g1.Line_Sensor_Position = 0 ∧
      g1.current_state = CENTER := by
  refine ⟨by decide, ?_⟩
  obtain ⟨g1, out, d, p, hk, h1, -, hp, hdata, hpos, hst⟩ :=
    acquisition_uses_shifted_bitmap (fun _ => 0) { Globals.first with ignore_left := 1 } 0x30
      (by decide)
  have hd : d = 0x18 := by rw [h1 rfl]; decide
  subst hd
  have hp0 : p = 0 := by
    have h18 : Reflectance_Sensor_Position 0x18 = some 0 := by decide
    rw [h18] at hp
    exact (Option.some.inj hp).symm
  subst hp0
  exact ⟨g1, out, hk, hdata, hpos, by rw [hst]; decide⟩

/-- Claim C17. Every tick returns, with the counter incremented modulo `2 ^ 32`.  With `c`
the new counter value, `Reflectance_Sensor_Start` is issued exactly when `c % 10 = 1`
and `Reflectance_Sensor_End` exactly when `c % 10 = 2`; when `c % 10 = 2` the globals
after the tick are those of the pipeline estimator, corrector, transition, mixer; on
every other tick the globals differ from the old ones in the counter only. -/
theorem Controller_2_schedule (impl : Int → Nat) (g : Globals) (sensor : Nat) :
    ∃ g1 out, Line_Follower_Controller_2 impl g sensor = some (g1, out) ∧
      g1.SysTick_counter = (g.SysTick_counter + 1) % 4294967296 ∧
      out = Controller_2_commands g1.SysTick_counter ∧
      (Command.Reflectance_Sensor_Start ∈ out ↔ g1.SysTick_counter % 10 = 1) ∧
      (Command.Reflectance_Sensor_End ∈ out ↔ g1.SysTick_counter % 10 = 2) ∧
      (g1.SysTick_counter % 10 = 2 →
        ∃ d p,
          d = (if g.ignore_left = (1 : Int) then (sensor % 256) >>> 1 else sensor % 256) ∧
          Reflectance_Sensor_Position d = some p ∧
          g1 = Line_Follower_Controller_2_mixer
            { g with SysTick_counter := (g.SysTick_counter + 1) % 4294967296,
                     Line_Sensor_Data := d,
                     Line_Sensor_Position := p,
                     integral := (pidController g p).2.integral,
                     previous := (pidController g p).2.previous,
                     PID := double_to_uint16 impl (pidController g p).1,
                     current_state :=
                       Line_Follower_Controller_2_transition g.current_state d p }) ∧
      (g1.SysTick_counter % 10 ≠ 2 →
        g1 = { g with SysTick_counter := (g.SysTick_counter + 1) % 4294967296 }) := by
  by_cases h : ((g.SysTick_counter + 1) % 4294967296) % 10 = 2
  · obtain ⟨d, p, hd, hp, hk⟩ := Controller_2_acquisition_eq impl g sensor h
    have hc : (Line_Follower_Controller_2_mixer
          { g with SysTick_counter := (g.SysTick_counter + 1) % 4294967296,
                   Line_Sensor_Data := d,
                   Line_Sensor_Position := p,
                   integral := (pidController g p).2.integral,
                   previous := (pidController g p).2.previous,
                   PID := double_to_uint16 impl (pidController g p).1,
                   current_state :=
                     Line_Follower_Controller_2_transition g.current_state d p }).SysTick_counter
        = (g.SysTick_counter + 1) % 4294967296 := (mixer_frame _).2.2.2.2.2.2.1
    refine ⟨_, _, hk, hc, ?_, ?_, ?_, ?_, ?_⟩
    · rw [hc]; simp [Controller_2_commands, h]
    · rw [hc]; simp [h]
    · rw [hc]; simp [h]
    · intro _; exact ⟨d, p, hd, hp, rfl⟩
    · intro hne; rw [hc] at hne; exact absurd h hne
  · have hk := Controller_2_idle_eq impl g sensor h
    refine ⟨_, _, hk, rfl, ?_, ?_, ?_, ?_, ?_⟩
    · simp only [Controller_2_commands, h, if_false]
    · by_cases h1 : ((g.SysTick_counter + 1) % 4294967296) % 10 = 1 <;> simp [h1]
    · by_cases h1 : ((g.SysTick_counter + 1) % 4294967296) % 10 = 1 <;> simp [h1, h]
    · intro h2; exact absurd h2 h
    · intro _; rfl

/-- Witness for C17: the first acquisition tick, sensor byte `0x18`. -/
theorem Controller_2_schedule_witness :
    ∃ g1 out, Line_Follower_Controller_2 (fun _ => 0) Globals.first 0x18 = some (g1, out) ∧
      g1.SysTick_counter = 2 ∧
      out = [Command.Reflectance_Sensor_End] ∧
      g1.Line_Sensor_Data = 0x18 ∧ g1.Line_Sensor_Position = 0 ∧
      g1.current_state = CENTER ∧
      g1.Duty_Cycle_Left = 3500 ∧ g1.Duty_Cycle_Right = 3500 := by
  obtain ⟨g1, out, hk, hc, hout, -, -, hacq, -⟩ :=
    Controller_2_schedule (fun _ => 0) Globals.first 0x18
  have hc2 : g1.SysTick_counter = 2 := by rw [hc]; decide
  obtain ⟨d, p, hd, hp, hg⟩ := hacq (by rw [hc2])
  have hd18 : d = 0x18 := by rw [hd]; decide
  subst hd18
  have hp0 : p = 0 := by
    have h18 : Reflectance_Sensor_Position 0x18 = some 0 := by decide
    rw [h18] at hp
    exact (Option.some.inj hp).symm
  subst hp0
  refine ⟨g1, out, hk, hc2, ?_, ?_, ?_, ?_, ?_, ?_⟩
  · rw [hout, hc2]; decide
  all_goals (rw [hg]; decide)

/-! ### What the `ignore_left` shift suppresses -/

/-- Bytes that agree on every bit but bit `0` have the same right shift by one. -/
theorem shift_eq_of_bits (r1 r2 : Nat)
    (hbits : ∀ i, i ≠ 0 → r1.testBit i = r2.testBit i) : r1 >>> 1 = r2 >>> 1 := by
  apply Nat.eq_of_testBit_eq
  intro i
  rw [Nat.testBit_shiftRight, Nat.testBit_shiftRight]
  exact hbits (1 + i) (by omega)

/-- Claim C16, counterexample.  In a state a run really reaches (`Globals.pivoting`, with
`ignore_left = 1`), the sensor bytes `0x88` and `0x08` differ only in bit `7`, yet the
acquisition tick computes offset `-48` and next state `R3` for the first, offset `142`
and next state `R1` for the second. -/
theorem ignore_left_keeps_leftmost_sensor :
    Globals.after double_to_uint16_wrap (fun k => if k = 2 then 0x01 else 0)
      (fun k => if k = 2 then 1 else 0) 11 = some Globals.pivoting ∧
    Globals.pivoting.ignore_left = 1 ∧
    ((0x88 : Nat) ^^^ 0x08) = 0x80 ∧
    ∃ g1 out1 g2 out2,
      Line_Follower_Controller_2 double_to_uint16_wrap Globals.pivoting 0x88 =
        some (g1, out1) ∧
      Line_Follower_Controller_2 double_to_uint16_wrap Globals.pivoting 0x08 =
        some (g2, out2) ∧
      g1.Line_Sensor_Position = -48 ∧ g2.Line_Sensor_Position = 142 ∧
      g1.current_state = R3 ∧ g2.current_state = R1 ∧
      g1.Line_Sensor_Position ≠ g2.Line_Sensor_Position ∧
      g1.current_state ≠ g2.current_state := by
  refine ⟨by decide!, rfl, by decide,
    { integral := 0, previous := 48, PID := 1342,
      Duty_Cycle_Left := 2158, Duty_Cycle_Right := 4842,
      Line_Sensor_Data := 0x44, Line_Sensor_Position := -48,
      SysTick_counter := 12, dead_right := 1, ignore_left := 1, current_state := R3 },
    [Command.Reflectance_Sensor_End],
    { integral := 0, previous := -142, PID := 62888,
      Duty_Cycle_Left := 6148, Duty_Cycle_Right := 852,
      Line_Sensor_Data := 0x04, Line_Sensor_Position := 142,
      SysTick_counter := 12, dead_right := 1, ignore_left := 1, current_state := R1 },
    [Command.Reflectance_Sensor_End],
    by decide!, by decide!, rfl, rfl, rfl, rfl, by decide, by decide⟩

/-- Claim C16, amended.  When `ignore_left = 1`, it is bit `0` of the sensor byte (the
rightmost sensor) that has no influence on the acquisition tick: two bytes that agree on
every other bit give the same globals after the tick (offset and next state included) and
the same driver calls.  The byte handed to the estimator never has bit `7` set. -/
theorem ignore_left_drops_rightmost_sensor (impl : Int → Nat) (g : Globals) (r1 r2 : Nat)
    (hph : ((g.SysTick_counter + 1) % 4294967296) % 10 = 2)
    (hi : g.ignore_left = 1) (h1 : r1 < 256) (h2 : r2 < 256)
    (hbits : ∀ i, i ≠ 0 → r1.testBit i = r2.testBit i) :
    ∃ g1 out, Line_Follower_Controller_2 impl g r1 = some (g1, out) ∧
      Line_Follower_Controller_2 impl g r2 = some (g1, out) ∧
      g1.Line_Sensor_Data = r1 >>> 1 ∧
      g1.Line_Sensor_Data.testBit 7 = false := by
  have hsh := shift_eq_of_bits r1 r2 hbits
  obtain ⟨d1, p1, hd1, hp1, hk1⟩ := Controller_2_acquisition_eq impl g r1 hph
  obtain ⟨d2, p2, hd2, hp2, hk2⟩ := Controller_2_acquisition_eq impl g r2 hph
  rw [if_pos hi, Nat.mod_eq_of_lt h1] at hd1
  rw [if_pos hi, Nat.mod_eq_of_lt h2, ← hsh] at hd2
  subst hd1
  subst hd2
  have hp : p1 = p2 := Option.some.inj (hp1.symm.trans hp2)
  subst hp
  have hdata : (Line_Follower_Controller_2_mixer
          { g with SysTick_counter := (g.SysTick_counter + 1) % 4294967296,
                   Line_Sensor_Data := r1 >>> 1,
                   Line_Sensor_Position := p1,
                   integral := (pidController g p1).2.integral,
                   previous := (pidController g p1).2.previous,
                   PID := double_to_uint16 impl (pidController g p1).1,
                   current_state :=
                     Line_Follower_Controller_2_transition g.current_state (r1 >>> 1) p1
                       }).Line_Sensor_Data = r1 >>> 1 := (mixer_frame _).2.1
  refine ⟨_, _, hk1, hk2, hdata, ?_⟩
  rw [hdata]
  apply Nat.testBit_lt_two_pow
  rw [Nat.shiftRight_eq_div_pow]
  omega

/-- Witness for the amended C16: the bytes `0x09` and `0x08` in the state
`Globals.pivoting`. -/
theorem ignore_left_drops_rightmost_sensor_witness :
    ((Globals.pivoting.SysTick_counter + 1) % 4294967296) % 10 = 2 ∧
    Globals.pivoting.ignore_left = 1 ∧
    ∃ g1 out,
      Line_Follower_Controller_2 double_to_uint16_wrap Globals.pivoting 0x09 =
        some (g1, out) ∧
      Line_Follower_Controller_2 double_to_uint16_wrap Globals.pivoting 0x08 =
        some (g1, out) ∧
      g1.Line_Sensor_Data = 0x09 >>> 1 ∧
      g1.Line_Sensor_Data.testBit 7 = false :=
  ⟨by decide, rfl,
    ignore_left_drops_rightmost_sensor double_to_uint16_wrap Globals.pivoting 0x09 0x08
      (by decide) rfl (by decide) (by decide)
      (by
        intro i hi
        cases i with
        | zero => exact absurd rfl hi
        | succ j => rw [Nat.testBit_succ, Nat.testBit_succ])⟩

/-! ### Runs of the tick handler and the counter wrap-around -/

/-- Runs of `Timer_A1_Periodic_Task` leave the tick counter alone. -/
theorem Timer_A1_Periodic_Task_run_counter (k : Nat) (g : Globals) :
    (Timer_A1_Periodic_Task_run k g).SysTick_counter = g.SysTick_counter := by
  induction k generalizing g with
  | zero => rfl
  | succ k ih =>
    show (Timer_A1_Periodic_Task_run k (Line_Follower_FSM_1 g).1).SysTick_counter = _
    rw [ih]
    unfold Line_Follower_FSM_1
    split <;> rfl

/-- Every tick returns; its driver calls and its counter are fixed by the old counter. -/
theorem Controller_2_returns (impl : Int → Nat) (g : Globals) (sensor : Nat) :
    ∃ g1, Line_Follower_Controller_2 impl g sensor =
        some (g1, Controller_2_commands ((g.SysTick_counter + 1) % 4294967296)) ∧
      g1.SysTick_counter = (g.SysTick_counter + 1) % 4294967296 := by
  by_cases h : ((g.SysTick_counter + 1) % 4294967296) % 10 = 2
  · obtain ⟨d, p, -, -, hk⟩ := Controller_2_acquisition_eq impl g sensor h
    have h1 : ¬ ((g.SysTick_counter + 1) % 4294967296) % 10 = 1 := by omega
    have hcmd : Controller_2_commands ((g.SysTick_counter + 1) % 4294967296) =
        [Command.Reflectance_Sensor_End] := by
      unfold Controller_2_commands
      rw [if_neg h1, if_pos h]
    rw [hk, hcmd]
    exact ⟨_, rfl, (mixer_frame _).2.2.2.2.2.2.1⟩
  · have hcmd : Controller_2_commands ((g.SysTick_counter + 1) % 4294967296) =
        (if ((g.SysTick_counter + 1) % 4294967296) % 10 = 1 then
          [Command.Reflectance_Sensor_Start] else []) := by
      unfold Controller_2_commands
      rw [if_neg h]
    rw [Controller_2_idle_eq impl g sensor h, hcmd]
    exact ⟨_, rfl, rfl⟩

/-- After `n` ticks of a run the counter holds `n` modulo `2 ^ 32`. -/
theorem Globals_after_counter (impl : Int → Nat) (sensor tasks : Nat → Nat) (n : Nat) :
    ∃ g, Globals.after impl sensor tasks n = some g ∧
      g.SysTick_counter = n % 4294967296 := by
  induction n with
  | zero =>
    exact ⟨_, rfl, by rw [Timer_A1_Periodic_Task_run_counter]; rfl⟩
  | succ n ih =>
    obtain ⟨g, hg, hc⟩ := ih
    obtain ⟨g1, hk, hc1⟩ := Controller_2_returns impl g (sensor (n + 1))
    refine ⟨Timer_A1_Periodic_Task_run (tasks (n + 1)) g1, ?_, ?_⟩
    · show (match Globals.after impl sensor tasks n with
        | none => none
        | some g =>
          match Line_Follower_Controller_2 impl g (sensor (n + 1)) with
          | none => none
          | some r => some (Timer_A1_Periodic_Task_run (tasks (n + 1)) r.1)) = _
      rw [hg]
      simp only [hk]
    · rw [Timer_A1_Periodic_Task_run_counter, hc1, hc]
      omega

/-- The driver calls of tick number `n + 1` of a run. -/
theorem SysTick_Handler_commands_eq (impl : Int → Nat) (sensor tasks : Nat → Nat) (n : Nat) :
    SysTick_Handler_commands impl sensor tasks n =
      some (Controller_2_commands ((n + 1) % 4294967296)) := by
  obtain ⟨g, hg, hc⟩ := Globals_after_counter impl sensor tasks n
  obtain ⟨g1, hk, -⟩ := Controller_2_returns impl g (sensor (n + 1))
  unfold SysTick_Handler_commands
  rw [hg]
  simp only [hk, hc]
  congr 2
  omega

/-- Runs of `Timer_A1_Periodic_Task` stay among the reachable states. -/
theorem Timer_A1_Periodic_Task_run_Reachable (impl : Int → Nat) (k : Nat) (g : Globals)
    (h : Reachable impl g) : Reachable impl (Timer_A1_Periodic_Task_run k g) := by
  induction k generalizing g with
  | zero => exact h
  | succ k ih => exact ih _ (Reachable.task h)

/-- The globals after `n` ticks of a run are reachable at a handler boundary. -/
theorem Globals_after_Reachable (impl : Int → Nat) (sensor tasks : Nat → Nat) (n : Nat)
    (g : Globals) (h : Globals.after impl sensor tasks n = some g) : Reachable impl g := by
  induction n generalizing g with
  | zero =>
    obtain rfl := Option.some.inj h
    exact Timer_A1_Periodic_Task_run_Reachable impl _ _ Reachable.initial
  | succ n ih =>
    obtain ⟨g0, hg0, -⟩ := Globals_after_counter impl sensor tasks n
    obtain ⟨g1, hk, -⟩ := Controller_2_returns impl g0 (sensor (n + 1))
    have hstep : Globals.after impl sensor tasks (n + 1) =
        some (Timer_A1_Periodic_Task_run (tasks (n + 1)) g1) := by
      show (match Globals.after impl sensor tasks n with
        | none => none
        | some g =>
          match Line_Follower_Controller_2 impl g (sensor (n + 1)) with
          | none => none
          | some r => some (Timer_A1_Periodic_Task_run (tasks (n + 1)) r.1)) = _
      rw [hg0]
      simp only [hk]
    rw [hstep] at h
    obtain rfl := Option.some.inj h
    exact Timer_A1_Periodic_Task_run_Reachable impl _ _
      (Reachable.tick (sensor (n + 1)) (ih g0 hg0) hk)

/-- Claim C18, the code evaluated where it departs from the claim.  In every run from
counter `0` (any sensor bytes, any interleaving with the Timer A1 task), tick number
`n + 1` issues the calls the schedule gives for the counter value `(n + 1) % 2 ^ 32`.
As `2 ^ 32` is not a multiple of `10`, the ticks `4294967291` and `4294967297` both issue
`Reflectance_Sensor_Start` with no other start in between, `6` ticks apart, and likewise
`Reflectance_Sensor_End` on the ticks `4294967292` and `4294967298`. -/
theorem acquisition_period_at_wrap (impl : Int → Nat) (sensor tasks : Nat → Nat) :
    (∀ n, SysTick_Handler_commands impl sensor tasks n =
      some (Controller_2_commands ((n + 1) % 4294967296))) ∧
    SysTick_Handler_commands impl sensor tasks 4294967290 =
      some [Command.Reflectance_Sensor_Start] ∧
    SysTick_Handler_commands impl sensor tasks 4294967291 =
      some [Command.Reflectance_Sensor_End] ∧
    SysTick_Handler_commands impl sensor tasks 4294967292 = some [] ∧
    SysTick_Handler_commands impl sensor tasks 4294967293 = some [] ∧
    SysTick_Handler_commands impl sensor tasks 4294967294 = some [] ∧
    SysTick_Handler_commands impl sensor tasks 4294967295 = some [] ∧
    SysTick_Handler_commands impl sensor tasks 4294967296 =
      some [Command.Reflectance_Sensor_Start] ∧
    SysTick_Handler_commands impl sensor tasks 4294967297 =
      some [Command.Reflectance_Sensor_End] := by
  refine ⟨SysTick_Handler_commands_eq impl sensor tasks, ?_, ?_, ?_, ?_, ?_, ?_, ?_, ?_⟩ <;>
    (rw [SysTick_Handler_commands_eq]; decide)

/-! ### Collision handler -/

/-- Claim C19. For every bump mask and whatever the globals hold, `Bumper_Sensors_Handler`
issues the sequence of `Handle_Collision`, which is fixed and begins with `Motor_Stop`:
`Motor_Stop`; five times (both LEDs off, wait 200 ms, both LEDs red, wait 200 ms);
`Motor_Backward(4500, 4500)`; `Motor_Stop`; `Motor_Right(4500, 4500)`; `Motor_Stop`;
`Note_Pattern_1`, with blocking waits of 1000, 500, 500 and 1300 ms after the first four
motor commands.  Its motor commands are these five and no other. -/
theorem Handle_Collision_sequence (bumper_sensor_state : Nat) (g : Globals) :
    Bumper_Sensors_Handler bumper_sensor_state g = Handle_Collision g ∧
    (∀ (mask : Nat) (g1 : Globals),
      Bumper_Sensors_Handler mask g1 = Bumper_Sensors_Handler bumper_sensor_state g) ∧
    (Handle_Collision g).head? = some Command.Motor_Stop ∧
    Handle_Collision g =
      [Command.Motor_Stop, Command.Clock_Delay1ms 1000] ++
      (Handle_Collision_flash ++ Handle_Collision_flash ++ Handle_Collision_flash ++
        Handle_Collision_flash ++ Handle_Collision_flash) ++
      [Command.Motor_Backward 4500 4500, Command.Clock_Delay1ms 500,
       Command.Motor_Stop, Command.Clock_Delay1ms 500,
       Command.Motor_Right 4500 4500, Command.Clock_Delay1ms 1300,
       Command.Motor_Stop,
       Command.Note_Pattern_1] ∧
    Handle_Collision_flash =
      [Command.LED1_Output RED_LED_OFF, Command.LED2_Output RGB_LED_OFF,
       Command.Clock_Delay1ms 200,
       Command.LED1_Output RED_LED_ON, Command.LED2_Output RGB_LED_RED,
       Command.Clock_Delay1ms 200] ∧
    (Handle_Collision g).filter (fun c => !c.isDelay) =
      [Command.Motor_Stop,
       Command.LED1_Output RED_LED_OFF, Command.LED2_Output RGB_LED_OFF,
       Command.LED1_Output RED_LED_ON, Command.LED2_Output RGB_LED_RED,
       Command.LED1_Output RED_LED_OFF, Command.LED2_Output RGB_LED_OFF,
       Command.LED1_Output RED_LED_ON, Command.LED2_Output RGB_LED_RED,
       Command.LED1_Output RED_LED_OFF, Command.LED2_Output RGB_LED_OFF,
       Command.LED1_Output RED_LED_ON, Command.LED2_Output RGB_LED_RED,
       Command.LED1_Output RED_LED_OFF, Command.LED2_Output RGB_LED_OFF,
       Command.LED1_Output RED_LED_ON, Command.LED2_Output RGB_LED_RED,
       Command.LED1_Output RED_LED_OFF, Command.LED2_Output RGB_LED_OFF,
       Command.LED1_Output RED_LED_ON, Command.LED2_Output RGB_LED_RED,
       Command.Motor_Backward 4500 4500,
       Command.Motor_Stop,
       Command.Motor_Right 4500 4500,
       Command.Motor_Stop,
       Command.Note_Pattern_1] ∧
    (Handle_Collision g).filter Command.isMotor =
      [Command.Motor_Stop, Command.Motor_Backward 4500 4500, Command.Motor_Stop,
       Command.Motor_Right 4500 4500, Command.Motor_Stop] :=
  ⟨rfl, fun _ _ => rfl, rfl, rfl, rfl, rfl, rfl⟩

/-! ### PWM timer and motor driver -/

/-- Claim C21. For every state of the timer registers and every duty `d`:
`Timer_A0_Update_Duty_Cycle_1` and `Timer_A0_Update_Duty_Cycle_2` leave every register
unchanged when `d` is at least the period `CCR[0]`; otherwise the first sets `CCR[3]` to
`d` and the second sets `CCR[4]` to `d`, and each leaves every other `CCR` (the period and
the other channel among them), `CTL`, `CCTL` and `EX0` unchanged. -/
theorem Timer_A0_Update_Duty_Cycle_contract (t : Timer_A_Type) (d : Nat) :
    (d ≥ t.CCR 0 →
      Timer_A0_Update_Duty_Cycle_1 t d = t ∧ Timer_A0_Update_Duty_Cycle_2 t d = t) ∧
    (d < t.CCR 0 →
      ((Timer_A0_Update_Duty_Cycle_1 t d).CCR 3 = d ∧
        (∀ i, i ≠ 3 → (Timer_A0_Update_Duty_Cycle_1 t d).CCR i = t.CCR i) ∧
        (Timer_A0_Update_Duty_Cycle_1 t d).CTL = t.CTL ∧
        (Timer_A0_Update_Duty_Cycle_1 t d).CCTL = t.CCTL ∧
        (Timer_A0_Update_Duty_Cycle_1 t d).EX0 = t.EX0) ∧
      ((Timer_A0_Update_Duty_Cycle_2 t d).CCR 4 = d ∧
        (∀ i, i ≠ 4 → (Timer_A0_Update_Duty_Cycle_2 t d).CCR i = t.CCR i) ∧
        (Timer_A0_Update_Duty_Cycle_2 t d).CTL = t.CTL ∧
        (Timer_A0_Update_Duty_Cycle_2 t d).CCTL = t.CCTL ∧
        (Timer_A0_Update_Duty_Cycle_2 t d).EX0 = t.EX0)) := by
  constructor
  · intro h
    simp only [Timer_A0_Update_Duty_Cycle_1, Timer_A0_Update_Duty_Cycle_2, if_pos h, and_self]
  · intro h
    have hn : ¬ d ≥ t.CCR 0 := Nat.not_le.mpr h
    simp only [Timer_A0_Update_Duty_Cycle_1, Timer_A0_Update_Duty_Cycle_2, if_neg hn]
    refine ⟨⟨?_, ?_, trivial, trivial, trivial⟩, ⟨?_, ?_, trivial, trivial, trivial⟩⟩
    · exact Function.update_same 3 d t.CCR
    · intro i hi; exact Function.update_noteq hi d t.CCR
    · exact Function.update_same 4 d t.CCR
    · intro i hi; exact Function.update_noteq hi d t.CCR

/-- `Motor_Init` sets the period `CCR[0]` to `15000`. -/
theorem Motor_Init_period (hw : Hardware) : (Motor_Init hw).TIMER_A0.CCR 0 = 15000 := by
  unfold Motor_Init Timer_A0_PWM_Init
  simp

/-- Witness for C21: after `Motor_Init` the duty `4500` is below the period and is stored
in `CCR[3]`, with the period kept. -/
theorem Timer_A0_Update_Duty_Cycle_contract_witness :
    4500 < (Motor_Init Hardware.zero).TIMER_A0.CCR 0 ∧
    (Timer_A0_Update_Duty_Cycle_1 (Motor_Init Hardware.zero).TIMER_A0 4500).CCR 3 = 4500 ∧
    (Timer_A0_Update_Duty_Cycle_1 (Motor_Init Hardware.zero).TIMER_A0 4500).CCR 0 =
      (Motor_Init Hardware.zero).TIMER_A0.CCR 0 :=
  ⟨by rw [Motor_Init_period]; decide,
    ((Timer_A0_Update_Duty_Cycle_contract (Motor_Init Hardware.zero).TIMER_A0 4500).2
      (by rw [Motor_Init_period]; decide)).1.1,
    ((Timer_A0_Update_Duty_Cycle_contract (Motor_Init Hardware.zero).TIMER_A0 4500).2
      (by rw [Motor_Init_period]; decide)).1.2.1 0 (by decide)⟩

/-- With the period `15000`, two duties below it are both stored by the pair of update
calls that every motor function makes. -/
theorem Motor_update_duty_cycles_CCR (hw : Hardware) (l r : Nat)
    (h0 : hw.TIMER_A0.CCR 0 = 15000) (hl : l < 15000) (hr : r < 15000) :
    (Motor_update_duty_cycles hw l r).TIMER_A0.CCR 3 = r ∧
    (Motor_update_duty_cycles hw l r).TIMER_A0.CCR 4 = l ∧
    (Motor_update_duty_cycles hw l r).TIMER_A0.CCR 0 = 15000 := by
  have hr1 : ¬ r ≥ hw.TIMER_A0.CCR 0 := by rw [h0]; omega
  unfold Motor_update_duty_cycles
  simp only [Timer_A0_Update_Duty_Cycle_1, if_neg hr1]
  have h0' : Function.update hw.TIMER_A0.CCR 3 r 0 = 15000 := by
    rw [Function.update_noteq (by decide)]; exact h0
  have hl1 : ¬ l ≥ Function.update hw.TIMER_A0.CCR 3 r 0 := by rw [h0']; omega
  simp only [Timer_A0_Update_Duty_Cycle_2, if_neg hl1]
  refine ⟨?_, ?_, ?_⟩
  · rw [Function.update_noteq (by decide), Function.update_same]
  · rw [Function.update_same]
  · rw [Function.update_noteq (by decide)]; exact h0'

/-- With the period `15000`, a motor call whose duties are below it stores the right duty
in `CCR[3]` and the left duty in `CCR[4]`, and keeps the period. -/
theorem Command_run_CCR (hw : Hardware) (c : Command) (l r : Nat)
    (h0 : hw.TIMER_A0.CCR 0 = 15000) (hd : c.duties = some (l, r))
    (hl : l < 15000) (hr : r < 15000) :
    (c.run hw).TIMER_A0.CCR 3 = r ∧ (c.run hw).TIMER_A0.CCR 4 = l ∧
    (c.run hw).TIMER_A0.CCR 0 = 15000 := by
  cases c with
  | Motor_Forward a b =>
    obtain ⟨rfl, rfl⟩ := Prod.mk.inj (Option.some.inj hd)
    exact Motor_update_duty_cycles_CCR _ _ _ h0 hl hr
  | Motor_Backward a b =>
    obtain ⟨rfl, rfl⟩ := Prod.mk.inj (Option.some.inj hd)
    exact Motor_update_duty_cycles_CCR _ _ _ h0 hl hr
  | Motor_Left a b =>
    obtain ⟨rfl, rfl⟩ := Prod.mk.inj (Option.some.inj hd)
    exact Motor_update_duty_cycles_CCR _ _ _ h0 hl hr
  | Motor_Right a b =>
    obtain ⟨rfl, rfl⟩ := Prod.mk.inj (Option.some.inj hd)
    exact Motor_update_duty_cycles_CCR _ _ _ h0 hl hr
  | Motor_Stop =>
    obtain ⟨rfl, rfl⟩ := Prod.mk.inj (Option.some.inj hd)
    exact Motor_update_duty_cycles_CCR _ _ _ h0 hl hr
  | _ => exact absurd hd (by simp [Command.duties])

/-- The motor call of the state-machine action carries the two duty-cycle globals, or
`3500` twice in `LEFT_T`. -/
theorem FSM_1_motor_duties (g : Globals) (c : Command) (l r : Nat)
    (hc : c ∈ (Line_Follower_FSM_1 g).2) (hd : c.duties = some (l, r)) :
    (l = g.Duty_Cycle_Left ∧ r = g.Duty_Cycle_Right) ∨ (l = 3500 ∧ r = 3500) := by
  have h3500 : to_uint16 PWM_NOMINAL = 3500 := by decide
  unfold Line_Follower_FSM_1 at hc
  split at hc <;>
    simp only [List.mem_cons, List.mem_singleton, List.not_mem_nil, or_false, h3500] at hc <;>
    (try rcases hc with rfl | rfl | rfl) <;>
    simp only [Command.duties, Option.some.injEq, Prod.mk.injEq, reduceCtorEq] at hd <;>
    (obtain ⟨rfl, rfl⟩ := hd) <;>
    first
      | exact Or.inl ⟨rfl, rfl⟩
      | exact Or.inr ⟨rfl, rfl⟩

/-- The motor calls of the collision handler carry `0` or `4500`. -/
theorem Handle_Collision_motor_duties (g : Globals) (c : Command) (l r : Nat)
    (hc : c ∈ Handle_Collision g) (hd : c.duties = some (l, r)) :
    (l = 0 ∧ r = 0) ∨ (l = 4500 ∧ r = 4500) := by
  have hlist : ∀ c ∈ Handle_Collision Globals.initial, ∀ p, c.duties = some p →
      p = (0, 0) ∨ p = (4500, 4500) := by
    intro c hc p hp
    have hmem : ∀ c ∈ Handle_Collision Globals.initial,
        c.duties = none ∨ c.duties = some (0, 0) ∨ c.duties = some (4500, 4500) := by
      decide
    rcases hmem c hc with h | h | h
    · rw [h] at hp; exact absurd hp (by simp)
    · rw [h] at hp; exact Or.inl (Option.some.inj hp).symm
    · rw [h] at hp; exact Or.inr (Option.some.inj hp).symm
  rcases hlist c hc (l, r) hd with h | h
  · exact Or.inl (Prod.mk.inj h)
  · exact Or.inr (Prod.mk.inj h)

/-- Claim C29. `Motor_Init` configures the period `15000`.  With that period, every motor
call issued by the state-machine action in a reachable state or by the collision handler
carries duties strictly below the period, stores the right duty in `CCR[3]` and the left
duty in `CCR[4]`, and keeps the period: no update is dropped.  In particular this holds
for every pair of duties in the band `[500, 6500]`, for the `4500` of the collision
handler and for the `0` of `Motor_Stop`. -/
theorem motor_updates_never_dropped :
    (∀ hw : Hardware, (Motor_Init hw).TIMER_A0.CCR 0 = 15000) ∧
    (∀ (impl : Int → Nat) (g : Globals) (hw : Hardware) (c : Command) (l r : Nat),
      Reachable impl g → hw.TIMER_A0.CCR 0 = 15000 →
      c ∈ (Line_Follower_FSM_1 g).2 ++ Handle_Collision g →
      c.duties = some (l, r) →
      l < 15000 ∧ r < 15000 ∧
      (c.run hw).TIMER_A0.CCR 3 = r ∧ (c.run hw).TIMER_A0.CCR 4 = l ∧
      (c.run hw).TIMER_A0.CCR 0 = 15000) ∧
    (∀ (hw : Hardware) (l r : Nat), hw.TIMER_A0.CCR 0 = 15000 →
      500 ≤ l → l ≤ 6500 → 500 ≤ r → r ≤ 6500 →
      (Motor_Forward hw l r).TIMER_A0.CCR 3 = r ∧ (Motor_Forward hw l r).TIMER_A0.CCR 4 = l ∧
      (Motor_Left hw l r).TIMER_A0.CCR 3 = r ∧ (Motor_Left hw l r).TIMER_A0.CCR 4 = l ∧
      (Motor_Right hw l r).TIMER_A0.CCR 3 = r ∧ (Motor_Right hw l r).TIMER_A0.CCR 4 = l) ∧
    (∀ hw : Hardware, hw.TIMER_A0.CCR 0 = 15000 →
      (Motor_Backward hw 4500 4500).TIMER_A0.CCR 3 = 4500 ∧
      (Motor_Backward hw 4500 4500).TIMER_A0.CCR 4 = 4500 ∧
      (Motor_Right hw 4500 4500).TIMER_A0.CCR 3 = 4500 ∧
      (Motor_Right hw 4500 4500).TIMER_A0.CCR 4 = 4500 ∧
      (Motor_Stop hw).TIMER_A0.CCR 3 = 0 ∧
      (Motor_Stop hw).TIMER_A0.CCR 4 = 0) := by
  refine ⟨Motor_Init_period, ?_, ?_, ?_⟩
  · intro impl g hw c l r hreach h0 hc hd
    have hband := Reachable_band impl g hreach
    unfold Duty_Cycles_in_band at hband
    simp only [PWM_MIN, PWM_MAX, PWM_NOMINAL, PWM_SWING] at hband
    have hlr : l < 15000 ∧ r < 15000 := by
      rcases List.mem_append.mp hc with h | h
      · rcases FSM_1_motor_duties g c l r h hd with ⟨rfl, rfl⟩ | ⟨rfl, rfl⟩
        · omega
        · omega
      · rcases Handle_Collision_motor_duties g c l r h hd with ⟨rfl, rfl⟩ | ⟨rfl, rfl⟩
        · omega
        · omega
    exact ⟨hlr.1, hlr.2, Command_run_CCR hw c l r h0 hd hlr.1 hlr.2⟩
  · intro hw l r h0 hl1 hl2 hr1 hr2
    have hl : l < 15000 := by omega
    have hr : r < 15000 := by omega
    have hF := Command_run_CCR hw (Command.Motor_Forward l r) l r h0 rfl hl hr
    have hL := Command_run_CCR hw (Command.Motor_Left l r) l r h0 rfl hl hr
    have hR := Command_run_CCR hw (Command.Motor_Right l r) l r h0 rfl hl hr
    exact ⟨hF.1, hF.2.1, hL.1, hL.2.1, hR.1, hR.2.1⟩
  · intro hw h0
    have hB := Command_run_CCR hw (Command.Motor_Backward 4500 4500) 4500 4500 h0 rfl
      (by decide) (by decide)
    have hR := Command_run_CCR hw (Command.Motor_Right 4500 4500) 4500 4500 h0 rfl
      (by decide) (by decide)
    have hS := Command_run_CCR hw Command.Motor_Stop 0 0 h0 rfl (by decide) (by decide)
    exact ⟨hB.1, hB.2.1, hR.1, hR.2.1, hS.1, hS.2.1⟩

/-- Witness for C29: the forward command of the initial state, on the registers left by
`Motor_Init`. -/
theorem motor_updates_never_dropped_witness :
    ((Command.Motor_Forward 3500 3500).run (Motor_Init Hardware.zero)).TIMER_A0.CCR 3 = 3500 ∧
    ((Command.Motor_Forward 3500 3500).run (Motor_Init Hardware.zero)).TIMER_A0.CCR 4 = 3500 :=
  ⟨(motor_updates_never_dropped.2.1 double_to_uint16_wrap Globals.initial
      (Motor_Init Hardware.zero) (Command.Motor_Forward 3500 3500) 3500 3500
      Reachable.initial (Motor_Init_period _) (by decide) rfl).2.2.1,
    (motor_updates_never_dropped.2.1 double_to_uint16_wrap Globals.initial
      (Motor_Init Hardware.zero) (Command.Motor_Forward 3500 3500) 3500 3500
      Reachable.initial (Motor_Init_period _) (by decide) rfl).2.2.2.1⟩

/-! ### Determinism of the next state -/

/-- The driver calls of `Line_Follower_FSM_1` with the duty arguments erased are fixed by
`current_state`: no other global, flag or counter enters. -/
theorem FSM_1_direction_of_state (g1 g2 : Globals)
    (hst : g1.current_state = g2.current_state) :
    (Line_Follower_FSM_1 g1).2.map Command.withoutDuty =
      (Line_Follower_FSM_1 g2).2.map Command.withoutDuty := by
  unfold Line_Follower_FSM_1
  rw [hst]
  split <;> rfl

/-- Claim C22. Two acquisition ticks that start from the same `current_state` and
`ignore_left` and read the same raw bitmap compute the same offset and the same next
state, whatever `dead_right`, `integral`, `previous`, `PID`, the duty cycles, the counter
(in the acquisition phase) and the conversion behaviour are.  And for any two states of
the globals with the same `current_state`, whatever everything else holds (`ignore_left`,
`dead_right`, the counter and its phase, the duty cycles, the corrector), the driver calls
of `Line_Follower_FSM_1` with the duty arguments erased are the same: the direction
command is a function of the state alone. -/
theorem next_state_depends_on :
    (∀ (impl1 impl2 : Int → Nat) (g1 g2 : Globals) (raw : Nat),
      ((g1.SysTick_counter + 1) % 4294967296) % 10 = 2 →
      ((g2.SysTick_counter + 1) % 4294967296) % 10 = 2 →
      g1.current_state = g2.current_state →
      g1.ignore_left = g2.ignore_left →
      ∃ a1 out1 a2 out2,
        Line_Follower_Controller_2 impl1 g1 raw = some (a1, out1) ∧
        Line_Follower_Controller_2 impl2 g2 raw = some (a2, out2) ∧
        a1.current_state = a2.current_state ∧
        a1.Line_Sensor_Position = a2.Line_Sensor_Position ∧
        a1.Line_Sensor_Data = a2.Line_Sensor_Data) ∧
    (∀ g1 g2 : Globals, g1.current_state = g2.current_state →
      (Line_Follower_FSM_1 g1).2.map Command.withoutDuty =
        (Line_Follower_FSM_1 g2).2.map Command.withoutDuty) := by
  refine ⟨?_, FSM_1_direction_of_state⟩
  intro impl1 impl2 g1 g2 raw hph1 hph2 hst hig
  obtain ⟨a1, o1, d1, p1, hk1, hd1, hp1, hdata1, hpos1, hs1, -, -⟩ :=
    Controller_2_acquisition_state impl1 g1 raw hph1
  obtain ⟨a2, o2, d2, p2, hk2, hd2, hp2, hdata2, hpos2, hs2, -, -⟩ :=
    Controller_2_acquisition_state impl2 g2 raw hph2
  have hd : d1 = d2 := by rw [hd1, hd2, hig]
  subst hd
  have hp : p1 = p2 := Option.some.inj (hp1.symm.trans hp2)
  subst hp
  exact ⟨a1, o1, a2, o2, hk1, hk2, by rw [hs1, hs2, hst], by rw [hpos1, hpos2],
    by rw [hdata1, hdata2]⟩

/-- Witness for C22.  Two states in `CENTER` with `ignore_left = 0` that differ in
`dead_right`, `previous`, a duty cycle and the counter, both reading `0x08`, get the same
offset and next state; and two states in `R3` that differ in `ignore_left`, in the phase
of the counter and in the duty cycles issue the same calls up to the duties. -/
theorem next_state_depends_on_witness :
    (∃ a1 out1 a2 out2,
      Line_Follower_Controller_2 double_to_uint16_wrap Globals.first 0x08 =
        some (a1, out1) ∧
      Line_Follower_Controller_2 (fun _ => 0)
        { Globals.first with dead_right := 1, previous := 7, Duty_Cycle_Left := 600,
                             SysTick_counter := 21 } 0x08 = some (a2, out2) ∧
      a1.current_state = a2.current_state ∧
      a1.Line_Sensor_Position = a2.Line_Sensor_Position ∧
      a1.Line_Sensor_Data = a2.Line_Sensor_Data) ∧
    (Line_Follower_FSM_1 Globals.pivoting).2.map Command.withoutDuty =
      (Line_Follower_FSM_1
        { Globals.initial with current_state := R3, Duty_Cycle_Left := 600 }).2.map
        Command.withoutDuty :=
  ⟨next_state_depends_on.1 double_to_uint16_wrap (fun _ => 0) Globals.first
      { Globals.first with dead_right := 1, previous := 7, Duty_Cycle_Left := 600,
                           SysTick_counter := 21 } 0x08
      (by decide) (by decide) rfl rfl,
    next_state_depends_on.2 Globals.pivoting
      { Globals.initial with current_state := R3, Duty_Cycle_Left := 600 } rfl⟩

/-! ### Range and symmetry of the estimator -/

/-- The range of the estimator in a form that evaluates on all 256 bytes. -/
theorem Reflectance_Sensor_Position_range_aux :
    ∀ b : Nat, b < 256 →
      (b ≠ 0 → (Reflectance_Sensor_Position b).any
        (fun p => decide (-334 ≤ p ∧ p ≤ 334)) = true) ∧
      (Reflectance_Sensor_Position b = some 335 ↔ b = 0) := by
  decide!

/-- Claim C23. For every non-zero 8-bit bitmap the estimator returns an offset between
`-334` and `334`; hence on 8-bit bitmaps the result is the sentinel `335` if and only if
the bitmap is zero. -/
theorem Reflectance_Sensor_Position_range :
    (∀ b : Nat, b < 256 → b ≠ 0 →
      ∃ p, Reflectance_Sensor_Position b = some p ∧ -334 ≤ p ∧ p ≤ 334) ∧
    (∀ b : Nat, b < 256 → (Reflectance_Sensor_Position b = some 335 ↔ b = 0)) := by
  refine ⟨?_, fun b hb => (Reflectance_Sensor_Position_range_aux b hb).2⟩
  intro b hb hnz
  have h := (Reflectance_Sensor_Position_range_aux b hb).1 hnz
  cases hp : Reflectance_Sensor_Position b with
  | none => rw [hp] at h; exact absurd h (by decide)
  | some p =>
    rw [hp] at h
    exact ⟨p, rfl, of_decide_eq_true h⟩

/-- Witness for C23: the bitmap `0x80` gives `-334`, inside the range. -/
theorem Reflectance_Sensor_Position_range_witness :
    (0x80 : Nat) < 256 ∧ (0x80 : Nat) ≠ 0 ∧
    ∃ p, Reflectance_Sensor_Position 0x80 = some p ∧ -334 ≤ p ∧ p ≤ 334 :=
  ⟨by decide, by decide, Reflectance_Sensor_Position_range.1 0x80 (by decide) (by decide)⟩

/-- Bit `i` of the mirrored bitmap is bit `7 - i` of the bitmap. -/
theorem mirror_bits : ∀ b : Nat, b < 256 → ∀ i : Nat, i < 8 →
    (mirror b).testBit i = b.testBit (7 - i) := by
  decide!

/-- Antisymmetry of the estimator in a form that evaluates on all 256 bytes. -/
theorem mirror_antisymmetric_aux : ∀ b : Nat, b < 256 →
    mirror b < 256 ∧
    (b ≠ 0 → Reflectance_Sensor_Position (mirror b) =
      (Reflectance_Sensor_Position b).map (fun p => -p)) ∧
    (b ≠ 0 → mirror b = b → Reflectance_Sensor_Position b = some 0) := by
  decide!

/-- Claim C30. Mirroring the sensor array negates the offset: for every non-zero 8-bit
bitmap `b`, the estimator on `mirror b` (bit `i` of which is bit `7 - i` of `b`) returns
the negative of its value on `b`; every non-zero bitmap equal to its mirror image, such
as `0x18` and `0xFF`, gives offset `0`. -/
theorem Reflectance_Sensor_Position_mirror :
    (∀ b : Nat, b < 256 → ∀ i : Nat, i < 8 → (mirror b).testBit i = b.testBit (7 - i)) ∧
    (∀ b : Nat, b < 256 → b ≠ 0 →
      ∃ p, Reflectance_Sensor_Position b = some p ∧
        Reflectance_Sensor_Position (mirror b) = some (-p)) ∧
    (∀ b : Nat, b < 256 → b ≠ 0 → mirror b = b → Reflectance_Sensor_Position b = some 0) ∧
    mirror 0x18 = 0x18 ∧ Reflectance_Sensor_Position 0x18 = some 0 ∧
    mirror 0xFF = 0xFF ∧ Reflectance_Sensor_Position 0xFF = some 0 ∧
    mirror 0x01 = 0x80 := by
  refine ⟨mirror_bits, ?_, fun b hb => (mirror_antisymmetric_aux b hb).2.2,
    by decide, by decide, by decide, by decide, by decide⟩
  intro b hb hnz
  have h := (mirror_antisymmetric_aux b hb).2.1 hnz
  obtain ⟨p, hp⟩ := Option.isSome_iff_exists.mp (Reflectance_Sensor_Position_total b hb)
  rw [hp] at h
  exact ⟨p, hp, h⟩

/-- Witness for C30: `0x01` (offset `334`) and its mirror image `0x80` (offset `-334`). -/
theorem Reflectance_Sensor_Position_mirror_witness :
    (0x01 : Nat) < 256 ∧ (0x01 : Nat) ≠ 0 ∧
    ∃ p, Reflectance_Sensor_Position 0x01 = some p ∧
      Reflectance_Sensor_Position (mirror 0x01) = some (-p) :=
  ⟨by decide, by decide,
    Reflectance_Sensor_Position_mirror.2.1 0x01 (by decide) (by decide)⟩

/-! ### The transition as written -/

/-- The test `Line_Sensor_Data & 1` is a test of bit `0`. -/
theorem and_one_ne_zero_iff (b : Nat) : b &&& 1 ≠ 0 ↔ b.testBit 0 = true := by
  rw [Nat.and_one_is_mod, Nat.testBit_zero]
  simp only [decide_eq_true_eq]
  omega

/-- Claim C24. As the source is written, both pattern tests are `Line_Sensor_Data & 1`:
for every current state other than `DEAD_END` and `R3` and every non-zero bitmap, the
next state is `R3` if and only if bit `0` of the bitmap is set, and when bit `0` is clear
it is `R1` if `offset >= 48`, `L1` if `offset <= -48` and `CENTER` otherwise. -/
theorem transition_as_written (cur : Line_Follower_State) (b : Nat) (pos : Int)
    (h1 : cur ≠ DEAD_END) (h2 : cur ≠ R3) (hb : b ≠ 0) :
    (Line_Follower_Controller_2_transition cur b pos = R3 ↔ b.testBit 0 = true) ∧
    (b.testBit 0 = false →
      Line_Follower_Controller_2_transition cur b pos =
        if pos ≥ 48 then R1 else if pos ≤ -48 then L1 else CENTER) := by
  have hbit := and_one_ne_zero_iff b
  unfold Line_Follower_Controller_2_transition
  simp only [c_bool, if_true, if_neg h1, if_neg h2, if_neg hb]
  by_cases h0 : b &&& 1 ≠ 0
  · have ht : b.testBit 0 = true := hbit.mp h0
    simp only [if_pos h0, ht, true_iff, Bool.true_eq_false, false_implies, and_self]
  · have hf : b.testBit 0 = false := by
      cases hc : b.testBit 0 with
      | false => rfl
      | true => exact absurd (hbit.mpr hc) h0
    simp only [if_neg h0, hf, Bool.false_eq_true, iff_false, true_implies]
    constructor
    · split_ifs <;> simp
    · split_ifs with a b c
      · rfl
      · rfl
      · rfl
      · omega

/-- Witness for C24: from `CENTER`, the bitmap `0x06` (bit `0` clear) with offset `190`. -/
theorem transition_as_written_witness :
    CENTER ≠ DEAD_END ∧ CENTER ≠ R3 ∧ (0x06 : Nat) ≠ 0 ∧
    (Line_Follower_Controller_2_transition CENTER 0x06 190 = R3 ↔
      (0x06 : Nat).testBit 0 = true) :=
  ⟨by decide, by decide, by decide,
    (transition_as_written CENTER 0x06 190 (by decide) (by decide) (by decide)).1⟩

/-- The transition stores the state of the assignment that the chain executes. -/
theorem transition_eq_branch_state (cur : Line_Follower_State) (b : Nat) (pos : Int) :
    Line_Follower_Controller_2_transition cur b pos =
      (Line_Follower_Controller_2_branch cur b pos).state := by
  unfold Line_Follower_Controller_2_transition Line_Follower_Controller_2_branch
  split_ifs <;> rfl

/-- The chain never executes its final `else`. -/
theorem branch_ne_final_else (cur : Line_Follower_State) (b : Nat) (pos : Int) :
    Line_Follower_Controller_2_branch cur b pos ≠ Branch.final_else := by
  unfold Line_Follower_Controller_2_branch
  split_ifs <;> (intro h; cases h <;> omega)

/-- Claim C25. The final `else` of the chain (fallback to `DEAD_END`) is never executed:
for every current state, bitmap and integer offset the assignment executed is one of the
earlier ones, and the state stored is the state of that assignment. -/
theorem final_else_unreachable :
    (∀ (cur : Line_Follower_State) (b : Nat) (pos : Int),
      Line_Follower_Controller_2_transition cur b pos =
        (Line_Follower_Controller_2_branch cur b pos).state) ∧
    (∀ (cur : Line_Follower_State) (b : Nat) (pos : Int),
      Line_Follower_Controller_2_branch cur b pos ≠ Branch.final_else) :=
  ⟨transition_eq_branch_state, branch_ne_final_else⟩

/-- Whatever the inputs, the transition stores one of five states. -/
theorem transition_range (cur : Line_Follower_State) (b : Nat) (pos : Int) :
    Line_Follower_Controller_2_transition cur b pos = CENTER ∨
    Line_Follower_Controller_2_transition cur b pos = L1 ∨
    Line_Follower_Controller_2_transition cur b pos = R1 ∨
    Line_Follower_Controller_2_transition cur b pos = R3 ∨
    Line_Follower_Controller_2_transition cur b pos = DEAD_END := by
  have hne := transition_ne_LEFT_T cur b pos
  revert hne
  unfold Line_Follower_Controller_2_transition
  split_ifs <;> simp

/-- The state-machine action does not assign `current_state`. -/
theorem FSM_1_current_state (g : Globals) :
    (Line_Follower_FSM_1 g).1.current_state = g.current_state := (FSM_1_cases g).1

/-- In every reachable state `current_state` is one of five states. -/
theorem Reachable_current_state (impl : Int → Nat) (g : Globals) (h : Reachable impl g) :
    g.current_state = CENTER ∨ g.current_state = L1 ∨ g.current_state = R1 ∨
    g.current_state = R3 ∨ g.current_state = DEAD_END := by
  induction h with
  | initial => exact Or.inl rfl
  | @tick g g1 out sensor _ hstep ih =>
    by_cases hph : ((g.SysTick_counter + 1) % 4294967296) % 10 = 2
    · obtain ⟨g2, o, d, p, hk, -, -, -, -, hst, -, -⟩ :=
        Controller_2_acquisition_state impl g sensor hph
      rw [hk] at hstep
      obtain ⟨rfl, -⟩ := Prod.mk.inj (Option.some.inj hstep)
      rw [hst]
      exact transition_range _ _ _
    · rw [Controller_2_idle_eq impl g sensor hph] at hstep
      obtain ⟨rfl, -⟩ := Prod.mk.inj (Option.some.inj hstep)
      exact ih
  | task _ ih =>
    rw [FSM_1_current_state]
    exact ih

/-- Claim C26. From the initial state `CENTER`, after any sequence of ticks (with any
sensor bytes) and state-machine actions, in any interleaving, `current_state` is one of
`CENTER`, `L1`, `R1`, `R3`, `DEAD_END`; the states `L2`, `L3`, `R2` and `LEFT_T` are never
entered. -/
theorem current_state_stays_in_five (impl : Int → Nat) (g : Globals)
    (h : Reachable impl g) :
    (g.current_state = CENTER ∨ g.current_state = L1 ∨ g.current_state = R1 ∨
      g.current_state = R3 ∨ g.current_state = DEAD_END) ∧
    g.current_state ≠ L2 ∧ g.current_state ≠ L3 ∧ g.current_state ≠ R2 ∧
    g.current_state ≠ LEFT_T := by
  have h5 := Reachable_current_state impl g h
  refine ⟨h5, ?_, ?_, ?_, ?_⟩ <;>
    (intro hc; rw [hc] at h5; revert h5; decide)

/-- Witness for C26: the state `Globals.pivoting`, reached after eleven ticks and one
state-machine action. -/
theorem current_state_stays_in_five_witness :
    Reachable double_to_uint16_wrap Globals.pivoting ∧
    (Globals.pivoting.current_state = CENTER ∨ Globals.pivoting.current_state = L1 ∨
      Globals.pivoting.current_state = R1 ∨ Globals.pivoting.current_state = R3 ∨
      Globals.pivoting.current_state = DEAD_END) :=
  ⟨Globals_after_Reachable double_to_uint16_wrap (fun k => if k = 2 then 0x01 else 0)
      (fun k => if k = 2 then 1 else 0) 11 Globals.pivoting (by decide!),
    (current_state_stays_in_five double_to_uint16_wrap Globals.pivoting
      (Globals_after_Reachable double_to_uint16_wrap (fun k => if k = 2 then 0x01 else 0)
        (fun k => if k = 2 then 1 else 0) 11 Globals.pivoting (by decide!))).1⟩

/-! ### Size of the correction -/

/-- With `PID` holding a correction `t` of magnitude at most `3000` modulo `2 ^ 16`, the
mixer block stores `3500 + t` and `3500 - t` and clamps nothing. -/
theorem mixer_small_correction (g : Globals) (t : Int) (h1 : -3000 ≤ t) (h2 : t ≤ 3000)
    (hpid : g.PID = to_uint16 t) :
    ((Line_Follower_Controller_2_mixer g).Duty_Cycle_Right : Int) = 3500 + t ∧
    ((Line_Follower_Controller_2_mixer g).Duty_Cycle_Left : Int) = 3500 - t := by
  unfold Line_Follower_Controller_2_mixer
  simp only [PWM_MIN, PWM_MAX, PWM_NOMINAL, PWM_SWING, to_uint16, hpid]
  split_ifs <;> dsimp only at * <;> omega

/-- From a fresh corrector (`integral = 0`, `previous = 0`) the returned value is
`-21 * p`. -/
theorem pidController_first (g : Globals) (p : Int) (hi : g.integral = 0)
    (hp : g.previous = 0) : (pidController g p).1 = -21 * p := by
  simp only [pidController, desired, Kp, Ki, Kd, hi, hp]
  omega

/-- A value in `0 .. 65535` is converted to itself, whatever the target does elsewhere. -/
theorem double_to_uint16_of_nonneg (impl : Int → Nat) (x : Int) (h0 : 0 ≤ x)
    (h1 : x < 65536) : double_to_uint16 impl x = to_uint16 x := by
  unfold double_to_uint16 to_uint16
  rw [if_pos ⟨h0, h1⟩]
  omega

/-- The wrapping conversion is reduction modulo `2 ^ 16` everywhere. -/
theorem double_to_uint16_wrap_eq (x : Int) :
    double_to_uint16 double_to_uint16_wrap x = to_uint16 x := by
  unfold double_to_uint16 double_to_uint16_wrap to_uint16
  split_ifs <;> omega

/-- The duty cycles after an acquisition tick from a fresh corrector, when the correction
`-21 * p` is stored in `PID` modulo `2 ^ 16`. -/
theorem acquisition_small_offset (impl : Int → Nat) (g : Globals) (sensor : Nat)
    (hph : ((g.SysTick_counter + 1) % 4294967296) % 10 = 2)
    (hi : g.integral = 0) (hprev : g.previous = 0) :
    ∃ g1 out p, Line_Follower_Controller_2 impl g sensor = some (g1, out) ∧
      g1.Line_Sensor_Position = p ∧
      (-142 ≤ p → p ≤ 142 → double_to_uint16 impl (-21 * p) = to_uint16 (-21 * p) →
        (g1.Duty_Cycle_Right : Int) = 3500 - 21 * p ∧
        (g1.Duty_Cycle_Left : Int) = 3500 + 21 * p) := by
  obtain ⟨d, p, -, -, hk⟩ := Controller_2_acquisition_eq impl g sensor hph
  refine ⟨_, _, p, hk, (mixer_frame _).2.2.1, ?_⟩
  intro h1 h2 hconv
  have hpid := pidController_first g p hi hprev
  have hm := mixer_small_correction
    { g with SysTick_counter := (g.SysTick_counter + 1) % 4294967296,
             Line_Sensor_Data := d,
             Line_Sensor_Position := p,
             integral := (pidController g p).2.integral,
             previous := (pidController g p).2.previous,
             PID := double_to_uint16 impl (pidController g p).1,
             current_state := Line_Follower_Controller_2_transition g.current_state d p }
    (-21 * p) (by omega) (by omega) (by rw [hpid]; exact hconv)
  constructor
  · rw [hm.1]; omega
  · rw [hm.2]; omega

/-- Duty cycles after a small measured offset.  From a fresh corrector (`integral = 0`,
`previous = 0`), an acquisition tick that measures an offset `p` with `-142 <= p <= 0`
sets `Duty_Cycle_Right = 3500 - 21 * p` and `Duty_Cycle_Left = 3500 + 21 * p`, unclamped,
for every conversion behaviour: the correction `-21 * p` is then in the range of
`uint16_t`.  For `0 < p <= 142` the same values result when the conversion of the negative
correction reduces modulo `2 ^ 16`. -/
theorem small_offset_duty_cycles (g : Globals) (sensor : Nat)
    (hph : ((g.SysTick_counter + 1) % 4294967296) % 10 = 2)
    (hi : g.integral = 0) (hprev : g.previous = 0) :
    (∃ g1 out p,
      Line_Follower_Controller_2 double_to_uint16_wrap g sensor = some (g1, out) ∧
      g1.Line_Sensor_Position = p ∧
      (-142 ≤ p → p ≤ 142 →
        (g1.Duty_Cycle_Right : Int) = 3500 - 21 * p ∧
        (g1.Duty_Cycle_Left : Int) = 3500 + 21 * p ∧
        (g1.Duty_Cycle_Left : Int) + (g1.Duty_Cycle_Right : Int) = 7000 ∧
        (0 < p → (g1.Duty_Cycle_Right : Int) < 3500 ∧ 3500 < (g1.Duty_Cycle_Left : Int)))) ∧
    (∀ impl : Int → Nat, ∃ g1 out p,
      Line_Follower_Controller_2 impl g sensor = some (g1, out) ∧
      g1.Line_Sensor_Position = p ∧
      (-142 ≤ p → p ≤ 0 →
        (g1.Duty_Cycle_Right : Int) = 3500 - 21 * p ∧
        (g1.Duty_Cycle_Left : Int) = 3500 + 21 * p)) := by
  constructor
  · obtain ⟨g1, out, p, hk, hpos, hduty⟩ :=
      acquisition_small_offset double_to_uint16_wrap g sensor hph hi hprev
    refine ⟨g1, out, p, hk, hpos, ?_⟩
    intro h1 h2
    obtain ⟨hr, hl⟩ := hduty h1 h2 (double_to_uint16_wrap_eq _)
    exact ⟨hr, hl, by omega, fun _ => by omega⟩
  · intro impl
    obtain ⟨g1, out, p, hk, hpos, hduty⟩ :=
      acquisition_small_offset impl g sensor hph hi hprev
    refine ⟨g1, out, p, hk, hpos, ?_⟩
    intro h1 h2
    exact hduty h1 (by omega) (double_to_uint16_of_nonneg impl _ (by omega) (by omega))

/-- The first acquisition tick reading `0x08` (offset `48`) under the conversion that
reduces modulo `2 ^ 16`. -/
theorem small_offset_duty_cycles_witness :
    ∃ g1 out, Line_Follower_Controller_2 double_to_uint16_wrap Globals.first 0x08 =
        some (g1, out) ∧
      g1.Line_Sensor_Position = 48 ∧
      (g1.Duty_Cycle_Right : Int) = 2492 ∧ (g1.Duty_Cycle_Left : Int) = 4508 := by
  obtain ⟨g1, out, p, hk, hpos, hduty⟩ :=
    (small_offset_duty_cycles Globals.first 0x08 (by decide) rfl rfl).1
  have h48 : Line_Follower_Controller_2 double_to_uint16_wrap Globals.first 0x08 =
      some ({ integral := 0, previous := -48, PID := 64528,
              Duty_Cycle_Left := 4508, Duty_Cycle_Right := 2492,
              Line_Sensor_Data := 0x08, Line_Sensor_Position := 48,
              SysTick_counter := 2, dead_right := 0, ignore_left := 0,
              current_state := R1 }, [Command.Reflectance_Sensor_End]) := by decide!
  rw [h48] at hk
  obtain ⟨rfl, -⟩ := Prod.mk.inj (Option.some.inj hk)
  have hp : p = 48 := hpos.symm
  subst hp
  obtain ⟨hr, hl, -, -⟩ := hduty (by decide) (by decide)
  exact ⟨_, _, h48, rfl, hr, hl⟩

/-- Claim C27, the code evaluated where it departs from the claim.  On the first
acquisition tick with bitmap `0x08` the offset is `48` and the corrector returns `-1008`,
which is outside the range of the `uint16_t` variable `PID`: C does not define the stored
value.  The claim gives right `3500 - 21 * 48 = 2492` and left `4508`.  The code yields
these when the conversion reduces modulo `2 ^ 16`, and `3500` for both when the conversion
yields `0`.  The mirrored bitmap `0x10` (offset `-48`, correction `1008`, in range) gives
right `4508` and left `2492` for every conversion behaviour, as the claim says. -/
theorem right_of_line_duty_cycles_undetermined :
    Reflectance_Sensor_Position 0x08 = some 48 ∧
    (pidController Globals.first 48).1 = -1008 ∧
    ¬ (0 ≤ (-1008 : Int) ∧ (-1008 : Int) < 65536) ∧
    ((3500 : Int) - 21 * 48 = 2492 ∧ (3500 : Int) + 21 * 48 = 4508) ∧
    Line_Follower_Controller_2 double_to_uint16_wrap Globals.first 0x08 = some (
      { integral := 0, previous := -48, PID := 64528,
        Duty_Cycle_Left := 4508, Duty_Cycle_Right := 2492,
        Line_Sensor_Data := 0x08, Line_Sensor_Position := 48,
        SysTick_counter := 2, dead_right := 0, ignore_left := 0,
        current_state := R1 }, [Command.Reflectance_Sensor_End]) ∧
    Line_Follower_Controller_2 (fun _ => 0) Globals.first 0x08 = some (
      { integral := 0, previous := -48, PID := 0,
        Duty_Cycle_Left := 3500, Duty_Cycle_Right := 3500,
        Line_Sensor_Data := 0x08, Line_Sensor_Position := 48,
        SysTick_counter := 2, dead_right := 0, ignore_left := 0,
        current_state := R1 }, [Command.Reflectance_Sensor_End]) ∧
    Reflectance_Sensor_Position 0x10 = some (-48) ∧
    (∀ impl : Int → Nat,
      Line_Follower_Controller_2 impl Globals.first 0x10 = some (
        { integral := 0, previous := 48, PID := 1008,
          Duty_Cycle_Left := 2492, Duty_Cycle_Right := 4508,
          Line_Sensor_Data := 0x10, Line_Sensor_Position := -48,
          SysTick_counter := 2, dead_right := 0, ignore_left := 0,
          current_state := L1 }, [Command.Reflectance_Sensor_End])) := by
  refine ⟨by decide, by decide, by decide, by decide, by decide!, by decide!, by decide, ?_⟩
  intro impl
  have h10 : Reflectance_Sensor_Position 0x10 = some (-48) := by decide
  simp [Line_Follower_Controller_2, Globals.first, Globals.initial, h10,
    pidController, double_to_uint16, Line_Follower_Controller_2_transition,
    Line_Follower_Controller_2_mixer, to_uint16, PWM_NOMINAL, PWM_MIN, PWM_MAX, PWM_SWING,
    desired, Kp, Ki, Kd, c_bool]

/-- From a zero accumulator and a previous error in `-335 .. 334`, every value returned
over a run of measurements in `-334 .. 335` lies in `-7369 .. 7349`. -/
theorem pidController_outputs_bounds (g : Globals) (hi : g.integral = 0)
    (hp1 : -335 ≤ g.previous) (hp2 : g.previous ≤ 334) (ms : List Int)
    (hms : ∀ m ∈ ms, -334 ≤ m ∧ m ≤ 335) :
    ∀ o ∈ pidController_outputs g ms, -7369 ≤ o ∧ o ≤ 7349 := by
  induction ms generalizing g with
  | nil => intro o ho; exact absurd ho (List.not_mem_nil o)
  | cons m ms ih =>
    have hm := hms m (List.mem_cons_self m ms)
    have hout : (pidController g m).1 = -21 * m - g.previous := by
      simp only [pidController, desired, Kp, Ki, Kd, hi]
      omega
    have hprev : (pidController g m).2.previous = -m := by
      simp only [pidController, desired]
      omega
    have hint : (pidController g m).2.integral = 0 := by
      simp only [pidController, Ki, hi]
      omega
    intro o ho
    rcases List.mem_cons.mp ho with rfl | ho
    · rw [hout]; omega
    · exact ih _ hint (by rw [hprev]; omega) (by rw [hprev]; omega)
        (fun x hx => hms x (List.mem_cons_of_mem m hx)) o ho

/-- Claim C28. From the initial globals, over every finite sequence of measurements in
`-334 .. 335` (the offsets the estimator can produce), every value `pidController`
returns lies between `-7369` and `7349`, and a non-negative one is stored in the 16-bit
`PID` unchanged.  Both bounds are attained: `7349` on the offsets `335` (bitmap `0x00`)
then `-334` (bitmap `0x80`), `-7369` on `-334` then `335`; and `7349` exceeds
`PWM_NOMINAL`. -/
theorem pidController_output_range :
    (∀ ms : List Int, (∀ m ∈ ms, -334 ≤ m ∧ m ≤ 335) →
      ∀ o ∈ pidController_outputs Globals.initial ms,
        -7369 ≤ o ∧ o ≤ 7349 ∧
        (0 ≤ o → ∀ impl : Int → Nat, (double_to_uint16 impl o : Int) = o)) ∧
    Reflectance_Sensor_Position 0x00 = some 335 ∧
    Reflectance_Sensor_Position 0x80 = some (-334) ∧
    pidController_outputs Globals.initial [335, -334] = [-7035, 7349] ∧
    pidController_outputs Globals.initial [-334, 335] = [7014, -7369] ∧
    (7349 : Int) > PWM_NOMINAL := by
  refine ⟨?_, by decide, by decide, by decide, by decide, by decide⟩
  intro ms hms o ho
  obtain ⟨h1, h2⟩ := pidController_outputs_bounds Globals.initial rfl (by decide) (by decide)
    ms hms o ho
  refine ⟨h1, h2, ?_⟩
  intro h0 impl
  unfold double_to_uint16
  rw [if_pos ⟨h0, by omega⟩]
  omega

/-- Witness for C28: the run of measurements `335`, `-334`. -/
theorem pidController_output_range_witness :
    (∀ m ∈ ([335, -334] : List Int), -334 ≤ m ∧ m ≤ 335) ∧
    (7349 : Int) ∈ pidController_outputs Globals.initial [335, -334] ∧
    -7369 ≤ (7349 : Int) ∧ (7349 : Int) ≤ 7349 :=
  ⟨by decide, by decide,
    (pidController_output_range.1 [335, -334] (by decide) 7349 (by decide)).1,
    (pidController_output_range.1 [335, -334] (by decide) 7349 (by decide)).2.1⟩


end LineFollower
